import Mathlib

/-!
Shallow embedding of the Axiograph plugin scripts
(`scripts/axiograph_llm_plugin_mock.py`,
`scripts/axiograph_world_model_plugin_real.py`,
`scripts/axiograph_world_model_plugin_onnx.py`,
`scripts/axiograph_world_model_plugin_baseline.py`).

JSON values are modelled by `JVal`; Python numbers (ints and floats) are
modelled as exact decimal rationals (`PyDec`).  Python operations that can raise are modelled
with `Except String`; the error string records the kind of exception.
All definitions are structural so that concrete runs reduce in the kernel.
-/

/-- Decidable equality for `Except`, used to evaluate modelled runs. -/
instance {ε α : Type} [DecidableEq ε] [DecidableEq α] :
    DecidableEq (Except ε α) := fun a b =>
  match a, b with
  | .error e, .error f =>
    if h : e = f then isTrue (by rw [h])
    else isFalse (by intro hc; cases hc; exact h rfl)
  | .ok x, .ok y =>
    if h : x = y then isTrue (by rw [h])
    else isFalse (by intro hc; cases hc; exact h rfl)
  | .error _, .ok _ => isFalse (by intro hc; cases hc)
  | .ok _, .error _ => isFalse (by intro hc; cases hc)

/-- An exact decimal rational `num / 10 ^ exp`.  Python numbers (ints and
IEEE floats) are modelled by this type: every float is a binary rational and
hence an exact decimal one, and the scripts do no arithmetic beyond parsing,
comparison and truncation, all of which are exact. -/
structure PyDec where
  num : ℤ
  exp : ℕ
  deriving DecidableEq, Repr

/-- The rational value of a `PyDec` (used in ordering statements). -/
def PyDec.toQ (d : PyDec) : ℚ := (d.num : ℚ) / (10 : ℚ) ^ d.exp

/-- Python `a < b` on numbers (cross-multiplied, exact). -/
def PyDec.ltB (a b : PyDec) : Bool :=
  decide (a.num * (10 : ℤ) ^ b.exp < b.num * (10 : ℤ) ^ a.exp)

/-- Python `min(a, b)`: `b` when `b < a`, else `a`. -/
def PyDec.pymin (a b : PyDec) : PyDec := if PyDec.ltB b a then b else a

/-- Python `max(a, b)`: `b` when `b > a`, else `a`. -/
def PyDec.pymax (a b : PyDec) : PyDec := if PyDec.ltB a b then b else a

/-- An integer as a `PyDec`. -/
def PyDec.int (n : ℤ) : PyDec := ⟨n, 0⟩

/-- A JSON-like Python value: None, bool, number, string, list, dict.
Dict keys are strings (all dicts handled by the scripts come from JSON). -/
inductive JVal where
  | null
  | bool (b : Bool)
  | num (q : PyDec)
  | str (s : String)
  | arr (xs : List JVal)
  | obj (fields : List (String × JVal))

namespace JVal

/-- Python truthiness of a value (`bool(v)`). -/
def truthy : JVal → Bool
  | .null => false
  | .bool b => b
  | .num q => decide (q.num ≠ 0)
  | .str s => decide (s ≠ "")
  | .arr xs => !xs.isEmpty
  | .obj fs => !fs.isEmpty

/-- Python `a or b`: `a` if truthy, else `b`. -/
def pyOr (a b : JVal) : JVal := if a.truthy then a else b

/-- Comparison of a value with a string literal (Python `v == "lit"`):
true only when `v` is that string. -/
def eqStr : JVal → String → Bool
  | .str s, t => s == t
  | _, _ => false

def isObj : JVal → Bool
  | .obj _ => true
  | _ => false

end JVal

/-- First-match lookup in a dict's field list; `none` when the key is absent. -/
def jlookup : List (String × JVal) → String → Option JVal
  | [], _ => none
  | (k, v) :: rest, key => if k == key then some v else jlookup rest key

/-- Python `d.get(k, default)` on a dict's field list. -/
def jgetD (fs : List (String × JVal)) (k : String) (d : JVal) : JVal :=
  (jlookup fs k).getD d

/-- Python `d.get(k)` on a dict's field list (`None` default). -/
def jget (fs : List (String × JVal)) (k : String) : JVal :=
  jgetD fs k .null

/-- Python `k in d` on a dict's field list. -/
def jhasKey (fs : List (String × JVal)) (k : String) : Bool :=
  (jlookup fs k).isSome

/-- Python `v.get(k, default)`: raises on a non-dict receiver. -/
def pyGetD (v : JVal) (k : String) (d : JVal) : Except String JVal :=
  match v with
  | .obj fs => .ok (jgetD fs k d)
  | _ => .error "AttributeError: get"

/-- Python `v.get(k)`: raises on a non-dict receiver. -/
def pyGet (v : JVal) (k : String) : Except String JVal :=
  pyGetD v k .null

/-- Python `d.setdefault(k, v)` expressed on field lists: keep the dict
unchanged if the key exists, otherwise append the binding. -/
def jsetdefault (fs : List (String × JVal)) (k : String) (v : JVal) :
    List (String × JVal) :=
  if jhasKey fs k then fs else fs ++ [(k, v)]

/-- Python `d[k] = v`: replace in place if present, else append. -/
def jset : List (String × JVal) → String → JVal → List (String × JVal)
  | [], k, v => [(k, v)]
  | (k', v') :: rest, k, v =>
    if k' == k then (k, v) :: rest else (k', v') :: jset rest k v

/-- Python `len(v)`: defined for strings, lists and dicts; raises otherwise. -/
def pyLen (v : JVal) : Except String ℕ :=
  match v with
  | .str s => .ok s.length
  | .arr xs => .ok xs.length
  | .obj fs => .ok fs.length
  | _ => .error "TypeError: no len"

/-- Python `v[0]`: head of a list, first character of a string (as a
one-character string); a dict lookup with key `0` always misses since the
modelled dicts have string keys; raises on everything else. -/
def pyIndex0 (v : JVal) : Except String JVal :=
  match v with
  | .arr (x :: _) => .ok x
  | .arr [] => .error "IndexError"
  | .str s =>
    match s.data with
    | c :: _ => .ok (.str (String.mk [c]))
    | [] => .error "IndexError"
  | .obj _ => .error "KeyError"
  | _ => .error "TypeError: not subscriptable"

/-- Python `v[i]` for `i ≥ 1` (used as `fields[1]`). -/
def pyIndexN (v : JVal) (i : ℕ) : Except String JVal :=
  match v with
  | .arr xs =>
    match xs.get? i with
    | some x => .ok x
    | none => .error "IndexError"
  | .str s =>
    match s.data.get? i with
    | some c => .ok (.str (String.mk [c]))
    | none => .error "IndexError"
  | .obj _ => .error "KeyError"
  | _ => .error "TypeError: not subscriptable"

/-- Python `v[-1]`: last element of a list, last character of a string;
a dict lookup with key `-1` always misses; raises on everything else. -/
def pyLast (v : JVal) : Except String JVal :=
  match v with
  | .arr xs =>
    match xs.getLast? with
    | some x => .ok x
    | none => .error "IndexError"
  | .str s =>
    match s.data.getLast? with
    | some c => .ok (.str (String.mk [c]))
    | none => .error "IndexError"
  | .obj _ => .error "KeyError"
  | _ => .error "TypeError: not subscriptable"

/-- Splitting a character list on a separator character (Python
`str.split(sep)` semantics: separators delimit possibly-empty pieces). -/
def splitOnCharAux (sep : Char) : List Char → List Char → List (List Char)
  | [], acc => [acc.reverse]
  | c :: cs, acc =>
    if c == sep then acc.reverse :: splitOnCharAux sep cs []
    else splitOnCharAux sep cs (c :: acc)

def splitOnChar (sep : Char) (cs : List Char) : List (List Char) :=
  splitOnCharAux sep cs []

/-- Decimal string accepted by Python's `float`: optional sign, digits with an
optional point, optional decimal exponent.  (Exotic forms — `inf`, `nan`,
underscores — are not produced by any modelled payload.) -/
def parseDecChars (cs : List Char) : Option PyDec :=
  let readDigits : List Char → Option (ℕ × ℕ) := fun ds =>
    if ds.isEmpty || !ds.all Char.isDigit then none
    else some (ds.foldl (fun a c => a * 10 + (c.toNat - 48)) 0, ds.length)
  let signSplit : List Char → (Bool × List Char) := fun ds =>
    match ds with
    | '-' :: rest => (true, rest)
    | '+' :: rest => (false, rest)
    | _ => (false, ds)
  let mantissa : List Char → Option PyDec := fun ds =>
    match splitOnChar '.' ds with
    | [intPart] =>
      (readDigits intPart).map (fun p => PyDec.mk p.1 0)
    | [intPart, fracPart] =>
      if intPart.isEmpty && fracPart.isEmpty then none
      else
        let ip := if intPart.isEmpty then some ((0 : ℕ), (0 : ℕ)) else readDigits intPart
        let fp := if fracPart.isEmpty then some ((0 : ℕ), (0 : ℕ)) else readDigits fracPart
        match ip, fp with
        | some i, some f => some (PyDec.mk (i.1 * 10 ^ f.2 + f.1) f.2)
        | _, _ => none
    | _ => none
  let (neg, cs) := signSplit cs
  let applySign : PyDec → PyDec := fun d => if neg then ⟨-d.num, d.exp⟩ else d
  let withExp : List Char → List Char → Option PyDec := fun m e =>
    match mantissa m, signSplit e with
    | some d, (eneg, eds) =>
      (readDigits eds).map fun p =>
        applySign (if eneg then ⟨d.num, d.exp + p.1⟩ else ⟨d.num * 10 ^ p.1, d.exp⟩)
    | none, _ => none
  match splitOnChar 'e' cs with
  | [_] =>
    match splitOnChar 'E' cs with
    | [m'] => (mantissa m').map applySign
    | [m', e'] => withExp m' e'
    | _ => none
  | [m, e] => withExp m e
  | _ => none

/-- Whitespace trim over the character list (Python `str.strip()`). -/
def strTrim (s : String) : String :=
  String.mk (((s.data.dropWhile Char.isWhitespace).reverse.dropWhile
    Char.isWhitespace).reverse)

/-- Python `float(v)`: numbers pass through, booleans become 0/1, numeric
strings are parsed, everything else raises. -/
def pyFloat (v : JVal) : Except String PyDec :=
  match v with
  | .num q => .ok q
  | .bool b => .ok (PyDec.int (if b then 1 else 0))
  | .str s =>
    match parseDecChars (strTrim s).data with
    | some q => .ok q
    | none => .error "ValueError: could not convert string to float"
  | _ => .error "TypeError: float() argument"

/-- Integer part of a decimal, truncating toward zero (Python `int(float)`). -/
def decTrunc (d : PyDec) : ℤ := Int.tdiv d.num ((10 : ℤ) ^ d.exp)

/-- Python `int(v)`: numbers truncate toward zero, booleans become 0/1,
strings must be (signed) digit sequences, everything else raises. -/
def pyInt (v : JVal) : Except String ℤ :=
  match v with
  | .num q => .ok (decTrunc q)
  | .bool b => .ok (if b then 1 else 0)
  | .str s =>
    let t := strTrim s
    let (neg, ds) :=
      match t.data with
      | '-' :: rest => (true, rest)
      | '+' :: rest => (false, rest)
      | _ => (false, t.data)
    if ds.isEmpty || !ds.all Char.isDigit then
      .error "ValueError: invalid literal for int"
    else
      let n : ℕ := ds.foldl (fun a c => a * 10 + (c.toNat - 48)) 0
      .ok (if neg then -(n : ℤ) else (n : ℤ))
  | _ => .error "TypeError: int() argument"

/-- Rendering of a number the way Python renders it.  Only integral numbers
are rendered by the modelled payloads; non-integral values fall back to a
scientific form. -/
def decStr (d : PyDec) : String :=
  if d.exp = 0 then toString d.num
  else toString d.num ++ "e-" ++ toString d.exp

/-- Python `str(v)`.  Containers get a fixed placeholder rendering: no
modelled payload ever renders a container into a message string. -/
def pyStr : JVal → String
  | .null => "None"
  | .bool true => "True"
  | .bool false => "False"
  | .num q => decStr q
  | .str s => s
  | .arr _ => "[...]"
  | .obj _ => "{...}"

/-- Python `repr(v)` as used in the unknown-task-kind error message. -/
def pyRepr : JVal → String
  | .str s => "'" ++ s ++ "'"
  | v => pyStr v

/-- Python `(v or "").strip()`: falsy values become the empty string; a
truthy non-string raises (`.strip()` on a non-str). -/
def pyOrEmptyStrip (v : JVal) : Except String String :=
  if v.truthy then
    match v with
    | .str s => .ok (strTrim s)
    | _ => .error "AttributeError: strip"
  else .ok ""

/-- Whitespace tokenizer (Python `str.split()` with no argument). -/
def splitWsAux : List Char → List Char → List String
  | [], acc => if acc.isEmpty then [] else [String.mk acc.reverse]
  | c :: cs, acc =>
    if c.isWhitespace then
      if acc.isEmpty then splitWsAux cs []
      else String.mk acc.reverse :: splitWsAux cs []
    else splitWsAux cs (c :: acc)

def strSplitWs (s : String) : List String := splitWsAux s.data []

/-- ASCII lowercasing over the character list (Python `str.lower()`). -/
def strLower (s : String) : String := String.mk (s.data.map Char.toLower)

/-- Python `s.startswith(p)`. -/
def strStartsWithAux : List Char → List Char → Bool
  | _, [] => true
  | [], _ :: _ => false
  | c :: cs, d :: ds => c == d && strStartsWithAux cs ds

def strStartsWith (s p : String) : Bool := strStartsWithAux s.data p.data

/-- Python `sep.join(xs)`. -/
def strJoinSep (sep : String) : List String → String
  | [] => ""
  | [x] => x
  | x :: rest => x ++ sep ++ strJoinSep sep rest

/-- Python `xs.index(x)` over a string list (first occurrence; the call sites
guard membership first, so the not-found value is never observed). -/
def idxOfStr : List String → String → ℕ
  | [], _ => 0
  | x :: rest, t => if x == t then 0 else idxOfStr rest t + 1

/-- Python `str.isdigit()` (ASCII digits; nonempty). -/
def strIsDigit (s : String) : Bool := !s.data.isEmpty && s.data.all Char.isDigit

/-- Python `int(s)` for a digit-only string (as produced under `isdigit`). -/
def strToNatDigits (s : String) : ℕ :=
  s.data.foldl (fun a c => a * 10 + (c.toNat - 48)) 0

/-- Python `for x in v`: lists iterate elements, strings iterate characters,
dicts iterate keys; everything else raises. -/
def pyIter (v : JVal) : Except String (List JVal) :=
  match v with
  | .arr xs => .ok xs
  | .str s => .ok (s.data.map (fun c => .str (String.mk [c])))
  | .obj fs => .ok (fs.map (fun kv => .str kv.1))
  | _ => .error "TypeError: not iterable"

/-- An integral JSON number. -/
def jint (n : ℤ) : JVal := .num (PyDec.int n)

/-!
Embedding of `scripts/axiograph_llm_plugin_mock.py`.
-/

/-- The mock plugin's `build_query_payload(question)`: deterministic
question-to-query templates, returning `{query_ir_v1, axql}`. -/
def build_query_payload (question : String) : JVal :=
  let tokens := strSplitWs question
  let lower := tokens.map strLower
  if lower.contains "follow" || (lower.take 1 == ["from"] && decide (2 ≤ tokens.length)) then
    let t1 := (tokens.get? 1).getD ""
    let start :=
      if lower.take 1 == ["from"] && decide (2 ≤ tokens.length) && strIsDigit t1
      then t1 else "0"
    let rels := tokens.filter (fun t => strStartsWith t "rel_")
    let path := if rels.isEmpty then "rel_0/rel_1" else strJoinSep "/" rels
    let axql := "select ?y where " ++ start ++ " -" ++ path ++ "-> ?y limit 20"
    let query_ir_v1 : JVal := .obj [
      ("version", jint 1),
      ("select", .arr [.str "?y"]),
      ("where", .arr [.obj [("kind", .str "edge"), ("left", jint (strToNatDigits start)),
        ("path", .str path), ("right", .str "?y")]]),
      ("limit", jint 20)]
    .obj [("query_ir_v1", query_ir_v1), ("axql", .str axql)]
  else if lower.take 1 == ["find"] && decide (2 ≤ tokens.length) then
    let type_name := (tokens.get? 1).getD ""
    let name : Option String :=
      if lower.contains "named" then tokens.get? (idxOfStr lower "named" + 1)
      else none
    let atoms : List String :=
      (if ["thing", "things", "entity", "entities"].contains (strLower type_name)
       then [] else ["?x is " ++ type_name]) ++
      (match name with
       | some n => ["?x.name = \"" ++ n ++ "\""]
       | none => [])
    let ir_atoms : List JVal :=
      (if ["thing", "things", "entity", "entities"].contains (strLower type_name)
       then []
       else [.obj [("kind", .str "type"), ("term", .str "?x"), ("type", .str type_name)]]) ++
      (match name with
       | some n => [.obj [("kind", .str "attr_eq"), ("term", .str "?x"),
           ("key", .str "name"), ("value", .str n)]]
       | none => [])
    let whereStr := if atoms.isEmpty then "?x is Node" else strJoinSep ", " atoms
    let axql := "select ?x where " ++ whereStr ++ " limit 20"
    let ir_atoms :=
      if ir_atoms.isEmpty
      then [.obj [("kind", .str "type"), ("term", .str "?x"), ("type", .str "Node")]]
      else ir_atoms
    .obj [("query_ir_v1", .obj [("version", jint 1), ("select", .arr [.str "?x"]),
      ("where", .arr ir_atoms), ("limit", jint 20)]), ("axql", .str axql)]
  else
    .obj [("query_ir_v1", .obj [("version", jint 1), ("select", .arr [.str "?x"]),
      ("where", .arr [.obj [("kind", .str "type"), ("term", .str "?x"), ("type", .str "Node")]]),
      ("limit", jint 20)]),
      ("axql", .str "select ?x where ?x is Node limit 20")]

/-- The mock plugin's `respond_to_query(question)`, whose body duplicates the
template logic of `build_query_payload` line by line (the duplication is
mirrored here deliberately); it returns the payload written by `respond_ok`. -/
def respond_to_query (question : String) : JVal :=
  let tokens := strSplitWs question
  let lower := tokens.map strLower
  if lower.contains "follow" || (lower.take 1 == ["from"] && decide (2 ≤ tokens.length)) then
    let t1 := (tokens.get? 1).getD ""
    let start :=
      if lower.take 1 == ["from"] && decide (2 ≤ tokens.length) && strIsDigit t1
      then t1 else "0"
    let rels := tokens.filter (fun t => strStartsWith t "rel_")
    let path := if rels.isEmpty then "rel_0/rel_1" else strJoinSep "/" rels
    let axql := "select ?y where " ++ start ++ " -" ++ path ++ "-> ?y limit 20"
    let query_ir_v1 : JVal := .obj [
      ("version", jint 1),
      ("select", .arr [.str "?y"]),
      ("where", .arr [.obj [("kind", .str "edge"), ("left", jint (strToNatDigits start)),
        ("path", .str path), ("right", .str "?y")]]),
      ("limit", jint 20)]
    .obj [("query_ir_v1", query_ir_v1), ("axql", .str axql)]
  else if lower.take 1 == ["find"] && decide (2 ≤ tokens.length) then
    let type_name := (tokens.get? 1).getD ""
    let name : Option String :=
      if lower.contains "named" then tokens.get? (idxOfStr lower "named" + 1)
      else none
    let atoms : List String :=
      (if ["thing", "things", "entity", "entities"].contains (strLower type_name)
       then [] else ["?x is " ++ type_name]) ++
      (match name with
       | some n => ["?x.name = \"" ++ n ++ "\""]
       | none => [])
    let ir_atoms : List JVal :=
      (if ["thing", "things", "entity", "entities"].contains (strLower type_name)
       then []
       else [.obj [("kind", .str "type"), ("term", .str "?x"), ("type", .str type_name)]]) ++
      (match name with
       | some n => [.obj [("kind", .str "attr_eq"), ("term", .str "?x"),
           ("key", .str "name"), ("value", .str n)]]
       | none => [])
    let whereStr := if atoms.isEmpty then "?x is Node" else strJoinSep ", " atoms
    let axql := "select ?x where " ++ whereStr ++ " limit 20"
    let ir_atoms :=
      if ir_atoms.isEmpty
      then [.obj [("kind", .str "type"), ("term", .str "?x"), ("type", .str "Node")]]
      else ir_atoms
    .obj [("query_ir_v1", .obj [("version", jint 1), ("select", .arr [.str "?x"]),
      ("where", .arr ir_atoms), ("limit", jint 20)]), ("axql", .str axql)]
  else
    .obj [("query_ir_v1", .obj [("version", jint 1), ("select", .arr [.str "?x"]),
      ("where", .arr [.obj [("kind", .str "type"), ("term", .str "?x"), ("type", .str "Node")]]),
      ("limit", jint 20)]),
      ("axql", .str "select ?x where ?x is Node limit 20")]

/-- One iteration of the first-row binding loop shared verbatim by
`respond_answer` and `respond_tool_loop_step`: for a variable `var` bound to
`v`, render `var=name (entity_type, id=...)` when `v` is a dict with an `id`
and a truthy `name`, `var=entity_type (id=...)` when the `name` is missing or
falsy, and nothing otherwise. -/
def renderBinding (var : String) (v : JVal) : Option String :=
  match v with
  | .obj fs =>
    if jhasKey fs "id" then
      let name := jget fs "name"
      let et := jget fs "entity_type"
      let idv := jget fs "id"
      if name.truthy then
        some (var ++ "=" ++ pyStr name ++ " (" ++ pyStr et ++ ", id=" ++ pyStr idv ++ ")")
      else
        some (var ++ "=" ++ pyStr et ++ " (id=" ++ pyStr idv ++ ")")
    else none
  | _ => none

/-- The `parts`/`msg` suffix logic shared by `respond_answer` and
`respond_tool_loop_step` once the first row is known to be a dict. -/
def renderFirstRow (msg : String) (fs : List (String × JVal)) : String :=
  let parts := fs.filterMap (fun kv => renderBinding kv.1 kv.2)
  if parts.isEmpty then msg else msg ++ " First row: " ++ strJoinSep ", " parts

/-- The mock plugin's `respond_answer(task)`. -/
def respond_answer (task : JVal) : Except String JVal := do
  let results := JVal.pyOr (← pyGet task "results") (.obj [])
  let rows := JVal.pyOr (← pyGet results "rows") (.arr [])
  let n ← pyLen rows
  let msg := "Found " ++ toString n ++ " result rows."
  if rows.truthy then
    let first ← pyIndex0 rows
    match first with
    | .obj fs => pure (.obj [("answer", .str (renderFirstRow msg fs))])
    | _ => .error "AttributeError: items"
  else
    pure (.obj [("answer", .str msg)])

/-- The fixed generic final answer the tool loop falls back to. -/
def genericFinalAnswer : JVal :=
  .obj [("final_answer", .obj [("answer", .str "Done."), ("citations", .arr []),
    ("queries", .arr []), ("notes", .arr [.str "backend=mock_plugin (deterministic)"])])]

/-- The grounded-final-answer branch of `respond_tool_loop_step`: the last
transcript entry is an `axql_run` entry whose `result` is the dict `rfs`. -/
def axqlResultAnswer (rfs : List (String × JVal)) : Except String JVal := do
  let query_text := JVal.pyOr (jget rfs "query") (.str "")
  let results := JVal.pyOr (jget rfs "results") (.obj [])
  let rows := JVal.pyOr (← pyGet results "rows") (.arr [])
  let n ← pyLen rows
  let msg := "Found " ++ toString n ++ " result rows."
  let msg ← if rows.truthy then do
      let r0 ← pyIndex0 rows
      match r0 with
      | .obj fs => pure (renderFirstRow msg fs)
      | _ => pure msg
    else pure msg
  pure (.obj [("final_answer", .obj [
    ("answer", .str msg),
    ("citations", .arr []),
    ("queries", if query_text.truthy then .arr [query_text] else .arr []),
    ("notes", .arr [.str "backend=mock_plugin (deterministic)"])])])

/-- The transcript-driven part of `respond_tool_loop_step`: the response for
a non-empty transcript, computed from its last entry. -/
def toolLoopAnswer (last : JVal) : Except String JVal :=
  match last with
  | .obj lfs =>
    if (jget lfs "tool").eqStr "axql_run" then
      let result := JVal.pyOr (jget lfs "result") (.obj [])
      match result with
      | .obj rfs => axqlResultAnswer rfs
      | _ => pure genericFinalAnswer
    else pure genericFinalAnswer
  | _ => pure genericFinalAnswer

/-- The mock plugin's `respond_tool_loop_step(task)`: a tool call on an empty
transcript, a grounded final answer after an `axql_run` result, a generic
final answer on any other transcript shape. -/
def respond_tool_loop_step (task : JVal) : Except String JVal := do
  let question ← pyOrEmptyStrip (← pyGet task "question")
  let transcript := JVal.pyOr (← pyGet task "transcript") (.arr [])
  if !transcript.truthy then
    let q_payload := build_query_payload question
    let qir := match q_payload with | .obj fs => jget fs "query_ir_v1" | _ => .null
    pure (.obj [("tool_call", .obj [("name", .str "axql_run"),
      ("args", .obj [("query_ir_v1", qir), ("limit", jint 25)])])])
  else do
    let last ← pyLast transcript
    toolLoopAnswer last

/-- The constant `added_proposals` list of `respond_augment_proposals`. -/
def mockAddedProposals : JVal :=
  .arr [.obj [
    ("kind", .str "Entity"),
    ("proposal_id", .str "concept::mock::0"),
    ("confidence", .num ⟨6, 1⟩),
    ("evidence", .arr []),
    ("public_rationale", .str "mock plugin: added a sample Concept entity"),
    ("metadata", .obj [("derived_from", .str "axiograph_llm_plugin_mock")]),
    ("schema_hint", .null),
    ("entity_id", .str "concept::mock::0"),
    ("entity_type", .str "Concept"),
    ("name", .str "MockConcept"),
    ("attributes", .obj [("note", .str "deterministic mock")]),
    ("description", .str "A placeholder concept added by the mock plugin.")]]

/-- One iteration of the `respond_augment_proposals` loop: the update entry
produced for a single proposal record, `none` when the record contributes no
entry, an error when the domain value is a truthy non-string. -/
def augUpdate (p : JVal) : Except String (Option JVal) :=
  match p with
  | .obj fs =>
    let pid := JVal.pyOr (jget fs "proposal_id") (.str "")
    let md := JVal.pyOr (jget fs "metadata") (.obj [])
    let meta_domain := match md with | .obj mfs => jget mfs "domain" | _ => .null
    let attrs := JVal.pyOr (jget fs "attributes") (.obj [])
    let attr_domain := match attrs with | .obj afs => jget afs "domain" | _ => .null
    let dval := JVal.pyOr meta_domain (JVal.pyOr attr_domain (.str ""))
    match dval with
    | .str s =>
      if strLower (strTrim s) == "machining" && pid.truthy then
        .ok (some (.obj [
          ("proposal_id", pid),
          ("schema_hint", .str "machinist_learning"),
          ("public_rationale", .str "mock plugin: domain=machining → machinist_learning")]))
      else .ok none
    | _ => .error "AttributeError: strip"
  | _ => .ok none

/-- The `schema_hint_updates` accumulation loop of `respond_augment_proposals`. -/
def augUpdates : List JVal → Except String (List JVal)
  | [] => .ok []
  | p :: rest => do
    match ← augUpdate p with
    | some u => do
      let us ← augUpdates rest
      pure (u :: us)
    | none => augUpdates rest

/-- The mock plugin's `respond_augment_proposals(task)`. -/
def respond_augment_proposals (task : JVal) : Except String JVal := do
  let proposals_file := JVal.pyOr (← pyGet task "proposals") (.obj [])
  let proposals := JVal.pyOr (← pyGet proposals_file "proposals") (.arr [])
  let ps ← pyIter proposals
  let updates ← augUpdates ps
  pure (.obj [
    ("schema_hint_updates", .arr updates),
    ("added_proposals", mockAddedProposals),
    ("notes", .arr [.str "mock plugin: this is deterministic; replace with a real local model runner for semantic labeling"])])

/-- The mock plugin's `main()`: protocol gate, then dispatch on `task.kind`.
The result pairs the JSON object written to stdout with the process exit code
(`raise SystemExit(main())`); an `Except.error` is an exception escaping
`main`, which crashes the process without a response. -/
def mock_main (req : JVal) : Except String (JVal × ℕ) := do
  let protocol ← pyGet req "protocol"
  if !(protocol.eqStr "axiograph_llm_plugin_v2" || protocol.eqStr "axiograph_llm_plugin_v3") then
    pure (.obj [("error", .str "unsupported protocol")], 0)
  else do
    let task := JVal.pyOr (← pyGet req "task") (.obj [])
    let kind ← pyGet task "kind"
    if kind.eqStr "to_query" then do
      let question ← pyOrEmptyStrip (← pyGet task "question")
      pure (respond_to_query question, 0)
    else if kind.eqStr "answer" then do
      let r ← respond_answer task
      pure (r, 0)
    else if kind.eqStr "augment_proposals" then do
      let r ← respond_augment_proposals task
      pure (r, 0)
    else if kind.eqStr "tool_loop_step" then do
      let r ← respond_tool_loop_step task
      pure (r, 0)
    else
      pure (.obj [("error", .str ("unknown task kind: " ++ pyRepr kind))], 0)

/-!
Embedding of the world-model plugins.
-/

/-- Python `v[:n]` for a constant nonnegative `n`. -/
def pySliceTo (n : ℕ) (v : JVal) : Except String JVal :=
  match v with
  | .arr xs => .ok (.arr (xs.take n))
  | .str s => .ok (.str (String.mk (s.data.take n)))
  | _ => .error "TypeError: unsliceable"

/-- Python `v[:n]` for a possibly negative `n` (a negative bound counts from
the end). -/
def pySliceToInt (n : ℤ) (v : JVal) : Except String JVal :=
  match v with
  | .arr xs =>
    .ok (.arr (if 0 ≤ n then xs.take n.toNat else xs.take (xs.length - (-n).toNat)))
  | .str s =>
    .ok (.str (String.mk
      (if 0 ≤ n then s.data.take n.toNat else s.data.take (s.data.length - (-n).toNat))))
  | _ => .error "TypeError: unsliceable"

/-- Python `str(kind).lower() == "entity"`: `str()` of a non-string value
(None, bools, numbers, containers) never renders to `"entity"`, so only
string kinds can match. -/
def strOfKindIsEntity : JVal → Bool
  | .str s => strLower s == "entity"
  | _ => false

/-- One iteration of the `_normalize_proposals` loop body, shared verbatim
between the real and the onnx plugin (they differ only in the default
rationale text and in the default used by `p.get("kind", ...)`): the
canonicalized record for the dict `fs` found at original position `idx`. -/
def fixRecord (trace : String) (idx : ℕ) (rationale : String) (kindDefault : JVal)
    (fs : List (String × JVal)) : Except String JVal := do
  let kindB := strOfKindIsEntity (jgetD fs "kind" kindDefault)
  let baseId := "wm::" ++ trace ++ "::" ++ toString idx
  let conf ← pyFloat (jgetD fs "confidence" (.num ⟨7, 1⟩))
  let meta : List (String × JVal) := [
    ("proposal_id", JVal.pyOr (jget fs "proposal_id") (.str baseId)),
    ("confidence", .num conf),
    ("evidence", match jget fs "evidence" with | .arr xs => .arr xs | _ => .arr []),
    ("public_rationale", JVal.pyOr (jget fs "public_rationale") (.str rationale)),
    ("metadata", match jget fs "metadata" with | .obj m => .obj m | _ => .obj []),
    ("schema_hint", jget fs "schema_hint")]
  if kindB then
    .ok (.obj (meta ++ [
      ("kind", .str "Entity"),
      ("entity_id", JVal.pyOr (jget fs "entity_id") (.str (baseId ++ ":entity"))),
      ("entity_type", JVal.pyOr (jget fs "entity_type") (.str "Entity")),
      ("name", JVal.pyOr (jget fs "name")
        (JVal.pyOr (jget fs "entity_id") (.str ("Entity " ++ toString idx)))),
      ("attributes", match jget fs "attributes" with | .obj m => .obj m | _ => .obj []),
      ("description", jget fs "description")]))
  else
    .ok (.obj (meta ++ [
      ("kind", .str "Relation"),
      ("relation_id", JVal.pyOr (jget fs "relation_id") (.str (baseId ++ ":rel"))),
      ("rel_type", JVal.pyOr (jget fs "rel_type") (.str "related_to")),
      ("source", JVal.pyOr (jget fs "source") (.str "")),
      ("target", JVal.pyOr (jget fs "target") (.str "")),
      ("attributes", match jget fs "attributes" with | .obj m => .obj m | _ => .obj [])]))

/-- The `for idx, p in enumerate(proposals)` loop of the real plugin's
`_normalize_proposals`: non-dict records are skipped but still consume their
original index. -/
def fixRecords (trace : String) (rationale : String) (kindDefault : JVal) :
    ℕ → List JVal → Except String (List JVal)
  | _, [] => .ok []
  | i, p :: rest =>
    match p with
    | .obj fs => do
      let r ← fixRecord trace i rationale kindDefault fs
      let rs ← fixRecords trace rationale kindDefault (i + 1) rest
      pure (r :: rs)
    | _ => fixRecords trace rationale kindDefault (i + 1) rest

/-- The same loop as written in the onnx plugin, which has no dict guard:
a non-dict record raises (`p.get` on a non-dict). -/
def fixRecordsStrict (trace : String) (rationale : String) (kindDefault : JVal) :
    ℕ → List JVal → Except String (List JVal)
  | _, [] => .ok []
  | i, p :: rest =>
    match p with
    | .obj fs => do
      let r ← fixRecord trace i rationale kindDefault fs
      let rs ← fixRecordsStrict trace rationale kindDefault (i + 1) rest
      pure (r :: rs)
    | _ => .error "AttributeError: get"

/-- The real plugin's `_normalize_proposals(trace_id, data)` (document
level), with `time.time()` supplied as `now`. -/
def normalize_proposals_real (trace : String) (now : ℕ) (data : JVal) :
    Except String JVal := do
  let out0 := match data with | .obj fs => fs | _ => []
  let out1 := jsetdefault out0 "version" (jint 1)
  let out2 := jsetdefault out1 "generated_at" (.str (toString now))
  let out3 := jsetdefault out2 "source"
    (.obj [("source_type", .str "world_model"), ("locator", .str trace)])
  let out4 := jsetdefault out3 "schema_hint" .null
  let proposals := jgetD out4 "proposals" (.arr [])
  let ps := match proposals with | .arr xs => xs | _ => []
  let fixed ← fixRecords trace "world model proposal" .null 0 ps
  pure (.obj (jset out4 "proposals" (.arr fixed)))

/-- The onnx plugin's `_normalize_proposals(trace_id, proposals)` (takes the
record list directly and builds a fresh document). -/
def normalize_proposals_onnx (trace : String) (now : ℕ) (proposals : List JVal) :
    Except String JVal := do
  let fixed ← fixRecordsStrict trace "onnx world model proposal" (.str "Relation") 0 proposals
  pure (.obj [
    ("version", jint 1),
    ("generated_at", .str (toString now)),
    ("source", .obj [("source_type", .str "world_model"), ("locator", .str trace)]),
    ("schema_hint", .null),
    ("proposals", .arr fixed)])

/-- The sample loop of `_summarize_request` over `items[:3]`: each sampled
item must be a dict and its `fields`/`mask_fields` must be sliceable. -/
def checkSampleItems : List JVal → Except String Unit
  | [] => .ok ()
  | it :: rest =>
    match it with
    | .obj ifs => do
      let _ ← pySliceTo 4 (jgetD ifs "fields" (.arr []))
      let _ ← pySliceTo 4 (jgetD ifs "mask_fields" (.arr []))
      checkSampleItems rest
    | _ => .error "AttributeError: get"

/-- The effect of the real plugin's `_summarize_request(req)` on control
flow: the prompt and summary strings only feed the out-of-scope HTTP
backend, but the accesses it performs can raise, which this check mirrors. -/
def summarize_check (req : JVal) : Except String Unit := do
  let _ ← pyGetD req "trace_id" (.str "wm::unknown")
  let opts := JVal.pyOr (← pyGetD req "options" (.obj [])) (.obj [])
  let input_obj := JVal.pyOr (← pyGetD req "input" (.obj [])) (.obj [])
  let exportV ← pyGet input_obj "export"
  let _ ← (match exportV with
    | .obj efs => do
      let items := JVal.pyOr (jgetD efs "items" (.arr [])) (.arr [])
      let front ← pySliceTo 3 items
      let its ← pyIter front
      checkSampleItems its
    | _ => pure ())
  let _ ← pyGetD opts "goals" (.arr [])
  let _ ← pyGetD opts "objectives" (.arr [])
  let _ ← pyGetD opts "task_costs" (.arr [])
  let _ ← pyGetD opts "max_new_proposals" (jint 0)
  let _ ← pyGetD opts "notes" (.arr [])
  let _ ← pyGet input_obj "axi_digest_v1"
  pure ()

/-- The real plugin's `main()`.  The backend selection, HTTP call and
`_extract_json` are out-of-scope collaborators (spec section 1); they are
modelled by `backendName` and `backendResult`, the latter being the parsed
JSON of the model's reply or the exception any of those stages raised.
`_normalize_proposals` receives `str(trace_id)` (the id is only ever
interpolated into f-strings there). -/
def main_real (req : JVal) (now : ℕ) (backendName : String)
    (backendResult : Except String JVal) : Except String JVal := do
  let _ ← summarize_check req
  let trace ← pyGetD req "trace_id" (.str "wm::unknown")
  let parsed ← backendResult
  let proposals ← normalize_proposals_real (pyStr trace) now parsed
  let protocol ← pyGetD req "protocol" (.str "axiograph_world_model_v1")
  pure (.obj [
    ("protocol", protocol),
    ("trace_id", trace),
    ("generated_at_unix_secs", jint now),
    ("proposals", proposals),
    ("notes", .arr [.str ("backend=" ++ backendName)]),
    ("error", .null)])

/-- The fixed error envelope written by the `__main__` guard of the real and
onnx plugins. -/
def wm_error_envelope (now : ℕ) (e : String) : JVal :=
  .obj [
    ("protocol", .str "axiograph_world_model_v1"),
    ("trace_id", .str "wm::error"),
    ("generated_at_unix_secs", jint now),
    ("proposals", .obj [
      ("version", jint 1),
      ("generated_at", .str (toString now)),
      ("source", .obj [("source_type", .str "world_model"), ("locator", .str "error")]),
      ("schema_hint", .null),
      ("proposals", .arr [])]),
    ("notes", .arr []),
    ("error", .str e)]

/-- The `__main__` guard shared (textually identical) by the real and onnx
plugins: a normal run writes `main`'s envelope and exits 0; any exception is
caught, the error envelope is written, and the process exits 2. -/
def wm_guarded_run (now : ℕ) (body : Except String JVal) : JVal × ℕ :=
  match body with
  | .ok resp => (resp, 0)
  | .error e => (wm_error_envelope now e, 2)

/-- Python `{k: v for (k, v) in fields}`: each element must unpack to a
pair; keys are required to be strings (export field keys are strings per the
export interface), later pairs override earlier ones in place. -/
def fieldsToMapAux : List (String × JVal) → List JVal → Except String (List (String × JVal))
  | acc, [] => .ok acc
  | acc, e :: rest => do
    let kv ← (match e with
      | .arr [k, v] =>
        match k with
        | .str ks => .ok ((ks, v) : String × JVal)
        | _ => .error "TypeError: unhashable or non-string key"
      | .arr _ => .error "ValueError: not a pair"
      | .str s =>
        match s.data with
        | [a, b] => .ok (String.mk [a], JVal.str (String.mk [b]))
        | _ => .error "ValueError: not a pair"
      | _ => .error "TypeError: cannot unpack")
    fieldsToMapAux (jset acc kv.1 kv.2) rest

def fieldsToMap (xs : List JVal) : Except String (List (String × JVal)) :=
  fieldsToMapAux [] xs

/-- The onnx plugin's per-item proposal construction (`main`'s loop body).
The serialized pseudo-input, FNV hash and ONNX session are opaque model
machinery; their composition is `scoreOf`, mapping the item to the raw score
`float(result[0])` (with the `0.7` default when the session yields None). -/
def onnx_item_proposal (idx : ℕ) (modelPath : String) (scoreOf : JVal → PyDec)
    (it : JVal) : Except String JVal :=
  match it with
  | .obj ifs => do
    let rel := JVal.pyOr (jget ifs "relation") (.str "related_to")
    let fields := JVal.pyOr (jgetD ifs "fields" (.arr [])) (.arr [])
    let field_map ← (match fields with
      | .arr xs => do
        let m ← fieldsToMap xs
        pure (JVal.obj m)
      | _ => pure (JVal.obj []))
    let score := scoreOf it
    let conf := PyDec.pymax ⟨55, 2⟩ (PyDec.pymin ⟨95, 2⟩ score)
    let source ← (if fields.truthy then do
        let f0 ← pyIndex0 fields
        pyIndexN f0 1
      else pure (.str ""))
    let flen ← pyLen fields
    let target ← (if 1 < flen then do
        let f1 ← pyIndexN fields 1
        pyIndexN f1 1
      else pure (.str ""))
    pure (.obj [
      ("kind", .str "Relation"),
      ("proposal_id", .str ("rel::" ++ pyStr rel ++ "::" ++ toString idx)),
      ("confidence", .num conf),
      ("evidence", .arr []),
      ("public_rationale", .str "onnx world model prediction"),
      ("metadata", .obj [("model_path", .str modelPath)]),
      ("schema_hint", jget ifs "schema"),
      ("relation_id", .str ("rel::" ++ pyStr rel ++ "::" ++ toString idx)),
      ("rel_type", rel),
      ("source", source),
      ("target", target),
      ("attributes", field_map)])
  | _ => .error "AttributeError: get"

/-- The `for idx, it in enumerate(items[:max_new])` loop of the onnx plugin. -/
def onnxLoop (modelPath : String) (scoreOf : JVal → PyDec) :
    ℕ → List JVal → Except String (List JVal)
  | _, [] => .ok []
  | i, it :: rest => do
    let p ← onnx_item_proposal i modelPath scoreOf it
    let ps ← onnxLoop modelPath scoreOf (i + 1) rest
    pure (p :: ps)

/-- The onnx plugin's `main()`.  `envModelPath` models the
`WORLD_MODEL_MODEL_PATH` environment variable, `loadResult` the outcome of
`_load_onnx` (the onnxruntime import and session construction), and
`scoreOf` the session inference as in `onnx_item_proposal`. -/
def main_onnx (req : JVal) (now : ℕ) (envModelPath : String)
    (loadResult : Except String Unit) (scoreOf : JVal → PyDec) :
    Except String JVal := do
  let trace ← pyGetD req "trace_id" (.str "wm::onnx")
  let inp := JVal.pyOr (← pyGet req "input") (.obj [])
  let exportV := JVal.pyOr (← pyGet inp "export") (.obj [])
  let items := JVal.pyOr (← pyGetD exportV "items" (.arr [])) (.arr [])
  let opts := JVal.pyOr (← pyGetD req "options" (.obj [])) (.obj [])
  let mp ← pyGet opts "model_path"
  let model_path : String := match mp with | .str s => s | _ => ""
  let model_path :=
    if model_path.isEmpty then
      let e := strTrim envModelPath
      if e.isEmpty then "models/world_model_small.onnx" else e
    else model_path
  let _ ← loadResult
  let opts2 := JVal.pyOr (← pyGet req "options") (.obj [])
  let mn ← pyGetD opts2 "max_new_proposals" (jint 50)
  let max_new ← pyInt mn
  let front ← pySliceToInt max_new items
  let its ← pyIter front
  let proposals ← onnxLoop model_path scoreOf 0 its
  let proposals_file ← normalize_proposals_onnx (pyStr trace) now proposals
  let protocol ← pyGetD req "protocol" (.str "axiograph_world_model_v1")
  pure (.obj [
    ("protocol", protocol),
    ("trace_id", trace),
    ("generated_at_unix_secs", jint now),
    ("proposals", proposals_file),
    ("notes", .arr [.str ("backend=onnx model=" ++ model_path)]),
    ("error", .null)])

/-- The baseline plugin's `infer_endpoints(field_names)`. -/
def infer_endpoints (field_names : List String) : String × String :=
  if field_names.contains "from" && field_names.contains "to" then ("from", "to")
  else if field_names.contains "source" && field_names.contains "target" then
    ("source", "target")
  else if field_names.contains "lhs" && field_names.contains "rhs" then ("lhs", "rhs")
  else if field_names.contains "child" && field_names.contains "parent" then
    ("child", "parent")
  else match field_names with
    | a :: b :: _ => (a, b)
    | _ => ("", "")

/-- The proposal-building loop of the baseline plugin's `main()`. -/
def baselineLoop (strategy : String) : ℕ → List JVal → Except String (List JVal)
  | _, [] => .ok []
  | idx, item :: rest => do
    let fields ← pyGetD item "fields" (.arr [])
    let fpairs ← pyIter fields
    let fmap ← fieldsToMap fpairs
    let field_names := fmap.map Prod.fst
    let ends := infer_endpoints field_names
    if ends.1.isEmpty || ends.2.isEmpty then baselineLoop strategy (idx + 1) rest
    else do
      let src := jgetD fmap ends.1 (.str "")
      let dst := jgetD fmap ends.2 (.str "")
      if !src.truthy || !dst.truthy then baselineLoop strategy (idx + 1) rest
      else do
        let rel ← pyGetD item "relation" (.str "Rel")
        let pid := "rel::" ++ pyStr rel ++ "::" ++ pyStr src ++ "::" ++ pyStr dst
          ++ "::" ++ toString idx
        let schemaHint ← pyGet item "schema"
        let p : JVal := .obj [
          ("kind", .str "Relation"),
          ("proposal_id", .str pid),
          ("confidence", .num (if strategy == "oracle" then ⟨9, 1⟩ else ⟨5, 1⟩)),
          ("evidence", .arr []),
          ("public_rationale", .str ("baseline::" ++ strategy)),
          ("metadata", .obj [("baseline", .str strategy)]),
          ("schema_hint", schemaHint),
          ("relation_id", .str pid),
          ("rel_type", rel),
          ("source", src),
          ("target", dst),
          ("attributes", .obj fmap)]
        let ps ← baselineLoop strategy (idx + 1) rest
        pure (p :: ps)

/-- The baseline plugin's `main()` under `raise SystemExit(main())`:
an `.ok` result is the response written to stdout with exit code 0; an
`.error` is an exception (including the `SystemExit("unsupported protocol")`
on a protocol mismatch) that terminates the process with a nonzero exit code
and no JSON response.  `fileRead` models the `export_path` file load. -/
def baseline_main (strategy : String) (req : JVal) (now : ℕ)
    (fileRead : Except String JVal) : Except String (JVal × ℕ) := do
  if !((← pyGet req "protocol").eqStr "axiograph_world_model_v1") then
    .error "SystemExit: unsupported protocol"
  else do
    let inp ← pyGetD req "input" (.obj [])
    let e ← pyGet inp "export"
    let exportV ← (if e.truthy then pure e
      else do
        let inp2 ← pyGetD req "input" (.obj [])
        let ep ← pyGet inp2 "export_path"
        if ep.truthy then fileRead else pure (JVal.obj []))
    let itemsV ← pyGetD exportV "items" (.arr [])
    let its ← pyIter itemsV
    let proposals ← baselineLoop strategy 0 its
    let tid1 ← pyGetD req "trace_id" (.str "wm::baseline")
    let tid2 ← pyGetD req "trace_id" (.str "")
    pure (JVal.obj [
      ("protocol", .str "axiograph_world_model_v1"),
      ("trace_id", tid1),
      ("generated_at_unix_secs", jint now),
      ("proposals", .obj [
        ("version", jint 1),
        ("generated_at", .str (toString now)),
        ("source", .obj [("source_type", .str "world_model"), ("locator", tid2)]),
        ("schema_hint", .null),
        ("proposals", .arr proposals)]),
      ("notes", .arr [.str ("baseline strategy=" ++ strategy ++ " proposals="
        ++ toString proposals.length)]),
      ("error", .null)], 0)

/-!
Statement helpers and proof infrastructure.
-/

/-- Field access on a response object (for theorem statements). -/
def respField (v : JVal) (k : String) : Option JVal :=
  match v with
  | .obj fs => jlookup fs k
  | _ => none

/-- Whether an `Except`-valued run produced an object carrying field `k`. -/
def hasFieldE (r : Except String JVal) (k : String) : Bool :=
  match r with
  | .ok v => (respField v k).isSome
  | .error _ => false

theorem except_bind_ok {α β : Type} {x : Except String α} {f : α → Except String β}
    {b : β} (h : (x >>= f) = .ok b) : ∃ a, x = .ok a ∧ f a = .ok b := by
  cases x with
  | error e => simp [Bind.bind, Except.bind] at h
  | ok a => exact ⟨a, rfl, h⟩

theorem pyOrEmptyStrip_str (q : String) : pyOrEmptyStrip (.str q) = .ok (strTrim q) := by
  by_cases h : q = ""
  · subst h; rfl
  · simp [pyOrEmptyStrip, JVal.truthy, h]

theorem pyLast_arr {xs : List JVal} {x : JVal} (h : xs.getLast? = some x) :
    pyLast (.arr xs) = .ok x := by
  have e : pyLast (.arr xs)
      = (match xs.getLast? with
         | some x => Except.ok x
         | none => Except.error "IndexError") := rfl
  rw [e, h]

theorem build_query_payload_obj (q : String) : ∃ fs, build_query_payload q = .obj fs := by
  unfold build_query_payload
  dsimp only
  split
  · exact ⟨_, rfl⟩
  · split
    · exact ⟨_, rfl⟩
    · exact ⟨_, rfl⟩

/-- C8.  A tool-loop ask for `"find Thing named x"` on the empty transcript
returns the `axql_run` tool call carrying the built query IR and limit 25
(never a final answer); re-invoked with the transcript holding the one-row
`axql_run` result, it returns a final answer whose text contains
`"Found 1 result rows"` and renders the binding `?x=x (Thing, id=7)`. -/
theorem C8_tool_loop_concrete :
    respond_tool_loop_step (.obj [("question", .str "find Thing named x"),
        ("transcript", .arr [])]) =
      .ok (.obj [("tool_call", .obj [("name", .str "axql_run"),
        ("args", .obj [("query_ir_v1", .obj [("version", jint 1),
          ("select", .arr [.str "?x"]),
          ("where", .arr [.obj [("kind", .str "attr_eq"), ("term", .str "?x"),
            ("key", .str "name"), ("value", .str "x")]]),
          ("limit", jint 20)]),
          ("limit", jint 25)])])]) ∧
    respond_tool_loop_step (.obj [("question", .str "find Thing named x"),
        ("transcript", .arr [.obj [("tool", .str "axql_run"),
          ("result", .obj [("results", .obj [("rows", .arr [.obj [("?x", .obj
            [("id", jint 7), ("name", .str "x"),
             ("entity_type", .str "Thing")])]])])])]])]) =
      .ok (.obj [("final_answer", .obj [
        ("answer", .str ("Found 1 result rows" ++ ". First row: "
          ++ "?x=x (Thing, id=7)")),
        ("citations", .arr []),
        ("queries", .arr []),
        ("notes", .arr [.str "backend=mock_plugin (deterministic)"])])]) := by
  exact ⟨rfl, rfl⟩

/-- C5.  The query payload is built identically by the `to_query` handler and
by the tool loop's first turn: `respond_to_query` and `build_query_payload`
agree on every question (their bodies are duplicated in the source but are
extensionally — indeed definitionally — equal), and the first tool-loop turn
embeds exactly the `query_ir_v1` of the `to_query` payload for the same
(stripped) question, with limit 25. -/
theorem C5_shared_query_payload (q : String) :
    respond_to_query q = build_query_payload q ∧
    respond_tool_loop_step (.obj [("question", .str q), ("transcript", .arr [])]) =
      .ok (.obj [("tool_call", .obj [("name", .str "axql_run"),
        ("args", .obj [("query_ir_v1",
          (respField (respond_to_query (strTrim q)) "query_ir_v1").getD .null),
          ("limit", jint 25)])])]) := by
  refine ⟨rfl, ?_⟩
  show ((do
    let question ← pyOrEmptyStrip (.str q)
    let transcript := JVal.pyOr (.arr []) (.arr [])
    if !transcript.truthy then
      let q_payload := build_query_payload question
      let qir := match q_payload with | .obj fs => jget fs "query_ir_v1" | _ => .null
      pure (.obj [("tool_call", .obj [("name", .str "axql_run"),
        ("args", .obj [("query_ir_v1", qir), ("limit", jint 25)])])])
    else do
      let last ← pyLast transcript
      toolLoopAnswer last : Except String JVal)) = _
  rw [pyOrEmptyStrip_str]
  obtain ⟨fs, hfs⟩ := build_query_payload_obj (strTrim q)
  show Except.ok (JVal.obj [("tool_call", .obj [("name", .str "axql_run"),
    ("args", .obj [("query_ir_v1",
      match build_query_payload (strTrim q) with
      | .obj fs => jget fs "query_ir_v1"
      | _ => .null), ("limit", jint 25)])])]) = _
  have hr : respond_to_query (strTrim q) = JVal.obj fs := hfs
  rw [hfs, hr]
  rfl

/-- Whether a record's confidence field (with the canonicalizer's `0.7`
default) is float-coercible; non-dict records are skipped, hence trivially
fine. -/
def confCoercible (p : JVal) : Bool :=
  match p with
  | .obj fs => (pyFloat (jgetD fs "confidence" (.num ⟨7, 1⟩))).isOk
  | _ => true

/-- The proposal record list the real canonicalizer ends up iterating for a
given input document. -/
def docProposals (data : JVal) : List JVal :=
  match data with
  | .obj dfs =>
    match jgetD dfs "proposals" (.arr []) with
    | .arr xs => xs
    | _ => []
  | _ => []

theorem jlookup_cons (k1 : String) (v1 : JVal) (rest : List (String × JVal))
    (k : String) :
    jlookup ((k1, v1) :: rest) k = if k1 == k then some v1 else jlookup rest k := rfl

theorem jset_cons (k1 : String) (v1 : JVal) (rest : List (String × JVal))
    (k : String) (v : JVal) :
    jset ((k1, v1) :: rest) k v =
      if k1 == k then (k, v) :: rest else (k1, v1) :: jset rest k v := rfl

theorem jlookup_append (fs gs : List (String × JVal)) (k : String) :
    jlookup (fs ++ gs) k =
      match jlookup fs k with
      | some v => some v
      | none => jlookup gs k := by
  induction fs with
  | nil => rfl
  | cons kv rest ih =>
    obtain ⟨k1, v1⟩ := kv
    rw [List.cons_append, jlookup_cons, jlookup_cons]
    by_cases h : (k1 == k) = true
    · rw [if_pos h, if_pos h]
    · rw [if_neg (by simp [h]), if_neg (by simp [h]), ih]

theorem jgetD_jsetdefault_ne (fs : List (String × JVal)) (k : String) (v : JVal)
    (k2 : String) (d : JVal) (h : (k == k2) = false) :
    jgetD (jsetdefault fs k v) k2 d = jgetD fs k2 d := by
  unfold jsetdefault
  by_cases hk : jhasKey fs k = true
  · rw [if_pos hk]
  · rw [if_neg hk]
    unfold jgetD
    rw [jlookup_append]
    cases hl : jlookup fs k2 with
    | some w => rfl
    | none =>
      rw [jlookup_cons, if_neg (by simp [h])]
      rfl

theorem jlookup_jset_self (fs : List (String × JVal)) (k : String) (v : JVal) :
    jlookup (jset fs k v) k = some v := by
  induction fs with
  | nil => simp [jset, jlookup_cons]
  | cons kv rest ih =>
    obtain ⟨k1, v1⟩ := kv
    rw [jset_cons]
    by_cases h : (k1 == k) = true
    · rw [if_pos h, jlookup_cons]
      simp
    · rw [if_neg (by simp [h]), jlookup_cons, if_neg (by simp [h]), ih]

theorem jlookup_none_of_hasKey_false {fs : List (String × JVal)} {k : String}
    (h : jhasKey fs k = false) : jlookup fs k = none := by
  unfold jhasKey at h
  cases hl : jlookup fs k with
  | none => rfl
  | some v => rw [hl] at h; simp at h

theorem exbind_ok {α β : Type} (a : α) (f : α → Except String β) :
    (Except.ok a >>= f) = f a := rfl

theorem fixRecord_eq_ok (trace : String) (i : ℕ) (rat : String) (kd : JVal)
    (fs : List (String × JVal)) (c : PyDec)
    (hf : pyFloat (jgetD fs "confidence" (.num ⟨7, 1⟩)) = .ok c) :
    fixRecord trace i rat kd fs = .ok (.obj (
      [("proposal_id", JVal.pyOr (jget fs "proposal_id")
          (.str ("wm::" ++ trace ++ "::" ++ toString i))),
       ("confidence", .num c),
       ("evidence", match jget fs "evidence" with | .arr xs => .arr xs | _ => .arr []),
       ("public_rationale", JVal.pyOr (jget fs "public_rationale") (.str rat)),
       ("metadata", match jget fs "metadata" with | .obj m => .obj m | _ => .obj []),
       ("schema_hint", jget fs "schema_hint")] ++
      (if strOfKindIsEntity (jgetD fs "kind" kd) then
        [("kind", .str "Entity"),
         ("entity_id", JVal.pyOr (jget fs "entity_id")
            (.str ("wm::" ++ trace ++ "::" ++ toString i ++ ":entity"))),
         ("entity_type", JVal.pyOr (jget fs "entity_type") (.str "Entity")),
         ("name", JVal.pyOr (jget fs "name")
            (JVal.pyOr (jget fs "entity_id") (.str ("Entity " ++ toString i)))),
         ("attributes", match jget fs "attributes" with | .obj m => .obj m | _ => .obj []),
         ("description", jget fs "description")]
       else
        [("kind", .str "Relation"),
         ("relation_id", JVal.pyOr (jget fs "relation_id")
            (.str ("wm::" ++ trace ++ "::" ++ toString i ++ ":rel"))),
         ("rel_type", JVal.pyOr (jget fs "rel_type") (.str "related_to")),
         ("source", JVal.pyOr (jget fs "source") (.str "")),
         ("target", JVal.pyOr (jget fs "target") (.str "")),
         ("attributes", match jget fs "attributes" with | .obj m => .obj m | _ => .obj [])]))) := by
  unfold fixRecord
  rw [hf]
  simp only [exbind_ok]
  by_cases hk : strOfKindIsEntity (jgetD fs "kind" kd) = true
  · rw [if_pos hk, if_pos hk]
  · rw [if_neg hk, if_neg hk]

theorem fixRecord_fields (trace : String) (i : ℕ) (rat : String) (kd : JVal)
    (fs : List (String × JVal)) (c : PyDec)
    (hf : pyFloat (jgetD fs "confidence" (.num ⟨7, 1⟩)) = .ok c) :
    ∃ r, fixRecord trace i rat kd fs = .ok r ∧
      respField r "confidence" = some (.num c) ∧
      respField r "proposal_id" =
        some (JVal.pyOr (jget fs "proposal_id")
          (.str ("wm::" ++ trace ++ "::" ++ toString i))) ∧
      respField r "kind" = some (.str (if strOfKindIsEntity (jgetD fs "kind" kd)
        then "Entity" else "Relation")) := by
  refine ⟨_, fixRecord_eq_ok trace i rat kd fs c hf, ?_, ?_, ?_⟩
  · rfl
  · rfl
  · by_cases hk : strOfKindIsEntity (jgetD fs "kind" kd) = true
    · rw [if_pos hk, if_pos hk]
      rfl
    · rw [if_neg hk, if_neg hk]
      rfl

theorem fixRecords_cons_skip (trace rat : String) (kd : JVal) (p : JVal)
    (hp : JVal.isObj p = false) (i : ℕ) (rest : List JVal) :
    fixRecords trace rat kd i (p :: rest) = fixRecords trace rat kd (i + 1) rest := by
  cases p <;> first | rfl | simp [JVal.isObj] at hp

theorem fixRecords_cons_obj (trace rat : String) (kd : JVal)
    (fs : List (String × JVal)) (i : ℕ) (rest : List JVal) :
    fixRecords trace rat kd i (.obj fs :: rest) =
      (fixRecord trace i rat kd fs) >>= fun r =>
        (fixRecords trace rat kd (i + 1) rest) >>= fun rs => pure (r :: rs) := rfl

theorem fixRecords_ok (trace rat : String) (kd : JVal) :
    ∀ (ps : List JVal) (i : ℕ), (∀ p ∈ ps, confCoercible p = true) →
    ∃ out, fixRecords trace rat kd i ps = .ok out ∧
      out.length = (ps.filter JVal.isObj).length := by
  intro ps
  induction ps with
  | nil => exact fun i _ => ⟨[], rfl, rfl⟩
  | cons p rest ih =>
    intro i h
    have hp := h p (List.mem_cons_self p rest)
    have hrest : ∀ q ∈ rest, confCoercible q = true :=
      fun q hq => h q (List.mem_cons_of_mem p hq)
    obtain ⟨out, hout, hlen⟩ := ih (i + 1) hrest
    by_cases hobj : JVal.isObj p = true
    · cases p with
      | obj fs =>
        simp only [confCoercible] at hp
        cases hf : pyFloat (jgetD fs "confidence" (.num ⟨7, 1⟩)) with
        | error e => rw [hf] at hp; simp [Except.isOk, Except.toBool] at hp
        | ok c =>
          obtain ⟨r, hr, -, -, -⟩ := fixRecord_fields trace i rat kd fs c hf
          refine ⟨r :: out, ?_, ?_⟩
          · rw [fixRecords_cons_obj, hr, exbind_ok, hout, exbind_ok]
            rfl
          · simp [List.filter, JVal.isObj, hlen]
      | null => simp [JVal.isObj] at hobj
      | bool b => simp [JVal.isObj] at hobj
      | num q => simp [JVal.isObj] at hobj
      | str s => simp [JVal.isObj] at hobj
      | arr xs => simp [JVal.isObj] at hobj
    · simp only [Bool.not_eq_true] at hobj
      refine ⟨out, ?_, ?_⟩
      · rw [fixRecords_cons_skip trace rat kd p hobj, hout]
      · rw [List.filter_cons_of_neg (by simp [hobj]), hlen]

theorem fixRecords_mem (trace rat : String) (kd : JVal) :
    ∀ (ps : List JVal) (i : ℕ) (out : List JVal) (j : ℕ)
      (fs : List (String × JVal)) (r : JVal),
    fixRecords trace rat kd i ps = .ok out →
    ps.get? j = some (.obj fs) →
    fixRecord trace (i + j) rat kd fs = .ok r →
    r ∈ out := by
  intro ps
  induction ps with
  | nil => intro i out j fs r _ hj _; simp at hj
  | cons p rest ih =>
    intro i out j fs r h hj hr
    cases j with
    | zero =>
      simp only [List.get?] at hj
      injection hj with hj
      subst hj
      rw [fixRecords_cons_obj] at h
      obtain ⟨r', hr', h2⟩ := except_bind_ok h
      obtain ⟨rs, hrs, h3⟩ := except_bind_ok h2
      rw [Nat.add_zero] at hr
      rw [hr] at hr'
      injection hr' with hr'
      injection h3 with h3
      rw [← h3, hr']
      exact List.mem_cons_self _ _
    | succ j' =>
      simp only [List.get?] at hj
      rw [Nat.add_succ, ← Nat.succ_add] at hr
      by_cases hobj : JVal.isObj p = true
      · cases p with
        | obj pfs =>
          rw [fixRecords_cons_obj] at h
          obtain ⟨r', hr', h2⟩ := except_bind_ok h
          obtain ⟨rs, hrs, h3⟩ := except_bind_ok h2
          injection h3 with h3
          rw [← h3]
          exact List.mem_cons_of_mem _ (ih (i + 1) rs j' fs r hrs hj hr)
        | null => simp [JVal.isObj] at hobj
        | bool b => simp [JVal.isObj] at hobj
        | num q => simp [JVal.isObj] at hobj
        | str s => simp [JVal.isObj] at hobj
        | arr xs => simp [JVal.isObj] at hobj
      · simp only [Bool.not_eq_true] at hobj
        rw [fixRecords_cons_skip trace rat kd p hobj] at h
        exact ih (i + 1) out j' fs r h hj hr

/-- The real canonicalizer's document skeleton: the input's fields after the
four `setdefault`s. -/
def normalizedShell (trace : String) (now : ℕ) (data : JVal) : List (String × JVal) :=
  jsetdefault (jsetdefault (jsetdefault (jsetdefault
    (match data with | .obj fs => fs | _ => []) "version" (jint 1))
    "generated_at" (.str (toString now)))
    "source" (.obj [("source_type", .str "world_model"), ("locator", .str trace)]))
    "schema_hint" .null

theorem normalize_real_as_bind (trace : String) (now : ℕ) (data : JVal) :
    normalize_proposals_real trace now data =
      (fixRecords trace "world model proposal" .null 0 (docProposals data)) >>=
        (fun fixed =>
          .ok (.obj (jset (normalizedShell trace now data) "proposals" (.arr fixed)))) := by
  cases data with
  | obj dfs =>
    have h1 : jgetD (jsetdefault dfs "version" (jint 1)) "proposals" (.arr [])
        = jgetD dfs "proposals" (.arr []) :=
      jgetD_jsetdefault_ne _ _ _ _ _ rfl
    have h2 : jgetD (jsetdefault (jsetdefault dfs "version" (jint 1))
          "generated_at" (.str (toString now))) "proposals" (.arr [])
        = jgetD (jsetdefault dfs "version" (jint 1)) "proposals" (.arr []) :=
      jgetD_jsetdefault_ne _ _ _ _ _ rfl
    have h3 : jgetD (jsetdefault (jsetdefault (jsetdefault dfs "version" (jint 1))
          "generated_at" (.str (toString now))) "source"
          (.obj [("source_type", .str "world_model"), ("locator", .str trace)]))
          "proposals" (.arr [])
        = jgetD (jsetdefault (jsetdefault dfs "version" (jint 1))
          "generated_at" (.str (toString now))) "proposals" (.arr []) :=
      jgetD_jsetdefault_ne _ _ _ _ _ rfl
    have h4 : jgetD (normalizedShell trace now (.obj dfs)) "proposals" (.arr [])
        = jgetD (jsetdefault (jsetdefault (jsetdefault dfs "version" (jint 1))
          "generated_at" (.str (toString now))) "source"
          (.obj [("source_type", .str "world_model"), ("locator", .str trace)]))
          "proposals" (.arr []) :=
      jgetD_jsetdefault_ne _ _ _ _ _ rfl
    have key : (match jgetD (normalizedShell trace now (.obj dfs)) "proposals" (.arr [])
          with
        | JVal.arr xs => xs
        | _ => ([] : List JVal)) = docProposals (.obj dfs) := by
      rw [h4, h3, h2, h1]
      rfl
    have e : normalize_proposals_real trace now (.obj dfs) =
        (fixRecords trace "world model proposal" .null 0
          (match jgetD (normalizedShell trace now (.obj dfs)) "proposals" (.arr []) with
            | JVal.arr xs => xs
            | _ => ([] : List JVal))) >>=
          (fun fixed =>
            .ok (.obj (jset (normalizedShell trace now (.obj dfs)) "proposals"
              (.arr fixed)))) := rfl
    rw [e, key]
  | null => rfl
  | bool b => rfl
  | num q => rfl
  | str s => rfl
  | arr xs => rfl

/-- C2 (amended).  The real plugin's canonicalizer is defensive and total
*provided* every map-shaped record's confidence (defaulted to `0.7`) is
float-coercible: under that proviso it returns a `ProposalsDocument` for any
trace id and any loosely-typed input, skipping non-map records silently (the
output has exactly one record per map-shaped input) and coercing `kind` by
case-insensitive match against `"entity"` with `Relation` as the default.
(A non-coercible confidence — e.g. a list — makes `float()` raise; see the
counterexample.) -/
theorem C2_normalize_defensive (trace : String) (now : ℕ) (data : JVal)
    (hcoerce : ∀ p ∈ docProposals data, confCoercible p = true) :
    ∃ doc out, normalize_proposals_real trace now data = .ok doc
      ∧ respField doc "proposals" = some (.arr out)
      ∧ out.length = ((docProposals data).filter JVal.isObj).length
      ∧ (∀ j fs, (docProposals data).get? j = some (.obj fs) →
          ∃ r, r ∈ out ∧ respField r "kind" =
            some (.str (if strOfKindIsEntity (jget fs "kind") then "Entity"
              else "Relation"))) := by
  obtain ⟨out, hout, hlen⟩ :=
    fixRecords_ok trace "world model proposal" .null (docProposals data) 0 hcoerce
  refine ⟨.obj (jset (normalizedShell trace now data) "proposals" (.arr out)),
    out, ?_, ?_, hlen, ?_⟩
  · rw [normalize_real_as_bind, hout, exbind_ok]
  · show jlookup (jset (normalizedShell trace now data) "proposals" (.arr out))
      "proposals" = some (.arr out)
    exact jlookup_jset_self _ _ _
  · intro j fs hj
    have hmem : (JVal.obj fs) ∈ docProposals data := List.get?_mem hj
    have hc := hcoerce _ hmem
    simp only [confCoercible] at hc
    cases hf : pyFloat (jgetD fs "confidence" (.num ⟨7, 1⟩)) with
    | error e => rw [hf] at hc; simp [Except.isOk, Except.toBool] at hc
    | ok c =>
      obtain ⟨r, hr, -, -, hk⟩ :=
        fixRecord_fields trace j "world model proposal" .null fs c hf
      refine ⟨r, ?_, hk⟩
      refine fixRecords_mem trace "world model proposal" .null
        (docProposals data) 0 out j fs r hout hj ?_
      rw [Nat.zero_add]
      exact hr

/-- Witness for C2: a junk record, an upper-cased Entity record and a
numeric-string confidence all canonicalize; the junk record is skipped
(two outputs for three inputs) and `"ENTITY"` coerces to `Entity`. -/
theorem C2_normalize_defensive_witness :
    (∀ p ∈ docProposals (.obj [("proposals", .arr [.str "junk",
        .obj [("kind", .str "ENTITY")],
        .obj [("confidence", .str "0.9")]])]), confCoercible p = true) ∧
    (∃ doc out, normalize_proposals_real "t" 5 (.obj [("proposals", .arr [.str "junk",
        .obj [("kind", .str "ENTITY")],
        .obj [("confidence", .str "0.9")]])]) = .ok doc
      ∧ respField doc "proposals" = some (.arr out)
      ∧ out.length = ((docProposals (.obj [("proposals", .arr [.str "junk",
          .obj [("kind", .str "ENTITY")],
          .obj [("confidence", .str "0.9")]])])).filter JVal.isObj).length
      ∧ (∀ j fs, (docProposals (.obj [("proposals", .arr [.str "junk",
            .obj [("kind", .str "ENTITY")],
            .obj [("confidence", .str "0.9")]])])).get? j = some (.obj fs) →
          ∃ r, r ∈ out ∧ respField r "kind" =
            some (.str (if strOfKindIsEntity (jget fs "kind") then "Entity"
              else "Relation")))) :=
  ⟨by decide, C2_normalize_defensive "t" 5 _ (by decide)⟩

/-- Counterexample to C2 as stated: a record whose `confidence` is a list is
map-shaped, yet normalization raises a `TypeError` from `float()` instead of
returning a document. -/
theorem C2_float_raise_counterexample :
    normalize_proposals_real "t" 5
        (.obj [("proposals", .arr [.obj [("confidence", .arr [])]])]) =
      .error "TypeError: float() argument" := rfl

/-- C3 (amended).  The canonicalizer stores `float(confidence)` verbatim:
whatever value the input's confidence coerces to (default `0.7`) appears
unchanged in the output record — there is no clamping into [0,1]. -/
theorem C3_confidence_passthrough (trace : String) (i : ℕ) (rat : String)
    (kd : JVal) (fs : List (String × JVal)) (c : PyDec)
    (h : pyFloat (jgetD fs "confidence" (.num ⟨7, 1⟩)) = .ok c) :
    ∃ r, fixRecord trace i rat kd fs = .ok r ∧
      respField r "confidence" = some (.num c) := by
  obtain ⟨r, hr, hc, -, -⟩ := fixRecord_fields trace i rat kd fs c h
  exact ⟨r, hr, hc⟩

/-- Witness for C3: an out-of-range confidence `2` flows through unchanged. -/
theorem C3_confidence_passthrough_witness :
    pyFloat (jgetD [("confidence", jint 2)] "confidence" (.num ⟨7, 1⟩)) =
        .ok ⟨2, 0⟩ ∧
    (∃ r, fixRecord "t" 0 "world model proposal" .null
        [("confidence", jint 2)] = .ok r ∧
      respField r "confidence" = some (.num ⟨2, 0⟩)) :=
  ⟨rfl, C3_confidence_passthrough "t" 0 "world model proposal" .null
    [("confidence", jint 2)] ⟨2, 0⟩ rfl⟩

/-- Counterexample to C3 as stated: a record with confidence `2` comes out of
the full canonicalizer with confidence `2`, which does not lie in [0,1] —
out-of-range values are passed through, not clamped. -/
theorem C3_no_clamp_counterexample :
    ((do
      let doc ← normalize_proposals_real "t" 5
        (.obj [("proposals", .arr [.obj [("confidence", jint 2)]])])
      pure (match respField doc "proposals" with
        | some (.arr (r :: _)) => respField r "confidence"
        | _ => none) : Except String (Option JVal)) = .ok (some (.num ⟨2, 0⟩)))
    ∧ ¬ ((⟨2, 0⟩ : PyDec).toQ ≤ 1) :=
  ⟨rfl, by norm_num [PyDec.toQ]⟩

/-- C4.  For a map-shaped record at original position `j` of the input
sequence, a missing `confidence` canonicalizes to exactly `0.7` and a
missing `proposal_id` to exactly `wm::<trace>::<j>`, where `j` counts every
input record — including earlier non-map records that were skipped. -/
theorem C4_defaults_original_index (trace : String) (now : ℕ) (data : JVal)
    (j : ℕ) (fs : List (String × JVal)) (doc : JVal)
    (hj : (docProposals data).get? j = some (.obj fs))
    (hconf : jhasKey fs "confidence" = false)
    (hpid : jhasKey fs "proposal_id" = false)
    (hok : normalize_proposals_real trace now data = .ok doc) :
    ∃ out r, respField doc "proposals" = some (.arr out) ∧ r ∈ out ∧
      respField r "confidence" = some (.num ⟨7, 1⟩) ∧
      respField r "proposal_id" = some (.str ("wm::" ++ trace ++ "::" ++ toString j)) ∧
      PyDec.toQ ⟨7, 1⟩ = 0.7 := by
  rw [normalize_real_as_bind] at hok
  cases hfix : fixRecords trace "world model proposal" .null 0 (docProposals data) with
  | error e => rw [hfix] at hok; exact absurd hok (by simp [Bind.bind, Except.bind])
  | ok out =>
    rw [hfix, exbind_ok] at hok
    injection hok with hok
    have hcd : jgetD fs "confidence" (.num ⟨7, 1⟩) = .num ⟨7, 1⟩ := by
      unfold jgetD
      rw [jlookup_none_of_hasKey_false hconf]
      rfl
    have hpd : jget fs "proposal_id" = .null := by
      unfold jget jgetD
      rw [jlookup_none_of_hasKey_false hpid]
      rfl
    have hf : pyFloat (jgetD fs "confidence" (.num ⟨7, 1⟩)) = .ok ⟨7, 1⟩ := by
      rw [hcd]
      rfl
    obtain ⟨r, hr, hc, hp, -⟩ :=
      fixRecord_fields trace j "world model proposal" .null fs ⟨7, 1⟩ hf
    refine ⟨out, r, ?_, ?_, hc, ?_, by norm_num [PyDec.toQ]⟩
    · rw [← hok]
      exact jlookup_jset_self _ _ _
    · refine fixRecords_mem trace "world model proposal" .null
        (docProposals data) 0 out j fs r hfix hj ?_
      rw [Nat.zero_add]
      exact hr
    · rw [hp, hpd]
      rfl

/-- Witness for C4: with a skipped junk record at index 0 and an empty map
record at index 1, the confidence defaults to `0.7` and the fallback id uses
the original position 1. -/
theorem C4_defaults_original_index_witness :
    (docProposals (.obj [("proposals", .arr [.str "junk", .obj []])])).get? 1 =
        some (.obj []) ∧
    jhasKey ([] : List (String × JVal)) "confidence" = false ∧
    jhasKey ([] : List (String × JVal)) "proposal_id" = false ∧
    normalize_proposals_real "t" 5 (.obj [("proposals", .arr [.str "junk", .obj []])]) =
      .ok (.obj [("proposals", .arr [.obj [
        ("proposal_id", .str "wm::t::1"),
        ("confidence", .num ⟨7, 1⟩),
        ("evidence", .arr []),
        ("public_rationale", .str "world model proposal"),
        ("metadata", .obj []),
        ("schema_hint", .null),
        ("kind", .str "Relation"),
        ("relation_id", .str "wm::t::1:rel"),
        ("rel_type", .str "related_to"),
        ("source", .str ""),
        ("target", .str ""),
        ("attributes", .obj [])]]),
        ("version", jint 1),
        ("generated_at", .str "5"),
        ("source", .obj [("source_type", .str "world_model"), ("locator", .str "t")]),
        ("schema_hint", .null)]) ∧
    (∃ out r, respField (.obj [("proposals", .arr [.obj [
        ("proposal_id", .str "wm::t::1"),
        ("confidence", .num ⟨7, 1⟩),
        ("evidence", .arr []),
        ("public_rationale", .str "world model proposal"),
        ("metadata", .obj []),
        ("schema_hint", .null),
        ("kind", .str "Relation"),
        ("relation_id", .str "wm::t::1:rel"),
        ("rel_type", .str "related_to"),
        ("source", .str ""),
        ("target", .str ""),
        ("attributes", .obj [])]]),
        ("version", jint 1),
        ("generated_at", .str "5"),
        ("source", .obj [("source_type", .str "world_model"), ("locator", .str "t")]),
        ("schema_hint", .null)]) "proposals" = some (.arr out) ∧ r ∈ out ∧
      respField r "confidence" = some (.num ⟨7, 1⟩) ∧
      respField r "proposal_id" = some (.str ("wm::" ++ "t" ++ "::" ++ toString 1)) ∧
      PyDec.toQ ⟨7, 1⟩ = 0.7) :=
  ⟨rfl, rfl, rfl, rfl,
    C4_defaults_original_index "t" 5
      (.obj [("proposals", .arr [.str "junk", .obj []])]) 1 [] _ rfl rfl rfl rfl⟩

theorem PyDec.ltB_iff (a b : PyDec) : PyDec.ltB a b = true ↔ a.toQ < b.toQ := by
  unfold PyDec.ltB PyDec.toQ
  rw [decide_eq_true_iff]
  rw [div_lt_div_iff₀ (by positivity) (by positivity)]
  constructor <;> intro h <;> exact_mod_cast h

theorem clamp_bounds (s : PyDec) :
    (0.55 : ℚ) ≤ (PyDec.pymax ⟨55, 2⟩ (PyDec.pymin ⟨95, 2⟩ s)).toQ ∧
    (PyDec.pymax ⟨55, 2⟩ (PyDec.pymin ⟨95, 2⟩ s)).toQ ≤ (0.95 : ℚ) := by
  have hlo : (⟨55, 2⟩ : PyDec).toQ = 0.55 := by norm_num [PyDec.toQ]
  have hhi : (⟨95, 2⟩ : PyDec).toQ = 0.95 := by norm_num [PyDec.toQ]
  unfold PyDec.pymin PyDec.pymax
  by_cases h1 : PyDec.ltB s ⟨95, 2⟩ = true
  · rw [if_pos h1]
    have hs1 : s.toQ < (0.95 : ℚ) := by
      have := (PyDec.ltB_iff s ⟨95, 2⟩).mp h1
      rw [hhi] at this
      exact this
    by_cases h2 : PyDec.ltB ⟨55, 2⟩ s = true
    · rw [if_pos h2]
      have hs2 : (0.55 : ℚ) < s.toQ := by
        have := (PyDec.ltB_iff ⟨55, 2⟩ s).mp h2
        rw [hlo] at this
        exact this
      exact ⟨le_of_lt hs2, le_of_lt hs1⟩
    · rw [if_neg h2]
      rw [hlo]
      norm_num
  · rw [if_neg h1]
    have hc : PyDec.ltB ⟨55, 2⟩ ⟨95, 2⟩ = true := by decide
    rw [if_pos hc, hhi]
    norm_num

theorem onnx_item_conf (idx : ℕ) (mp : String) (scoreOf : JVal → PyDec)
    (it : JVal) (p : JVal) (h : onnx_item_proposal idx mp scoreOf it = .ok p) :
    respField p "confidence" =
      some (.num (PyDec.pymax ⟨55, 2⟩ (PyDec.pymin ⟨95, 2⟩ (scoreOf it)))) := by
  cases it with
  | obj ifs =>
    unfold onnx_item_proposal at h
    obtain ⟨fm, h1, h⟩ := except_bind_ok h
    obtain ⟨src, h2, h⟩ := except_bind_ok h
    obtain ⟨fl, h3, h⟩ := except_bind_ok h
    obtain ⟨tgt, h4, h⟩ := except_bind_ok h
    injection h with h
    rw [← h]
    rfl
  | null => exact absurd h (by simp [onnx_item_proposal])
  | bool b => exact absurd h (by simp [onnx_item_proposal])
  | num q => exact absurd h (by simp [onnx_item_proposal])
  | str s => exact absurd h (by simp [onnx_item_proposal])
  | arr xs => exact absurd h (by simp [onnx_item_proposal])

/-- C10.  Every relation proposal the onnx plugin constructs from export
items carries a confidence in the closed interval [0.55, 0.95]: the raw model
score is clamped with `max(0.55, min(0.95, score))` before the proposal is
built, whatever value the loaded model returns. -/
theorem C10_onnx_confidence_range (modelPath : String) (scoreOf : JVal → PyDec)
    (i : ℕ) (items : List JVal) (ps : List JVal)
    (h : onnxLoop modelPath scoreOf i items = .ok ps) :
    ∀ p ∈ ps, ∃ c, respField p "confidence" = some (.num c) ∧
      (0.55 : ℚ) ≤ c.toQ ∧ c.toQ ≤ (0.95 : ℚ) := by
  induction items generalizing i ps with
  | nil =>
    unfold onnxLoop at h
    injection h with h
    subst h
    intro p hp
    simp at hp
  | cons it rest ih =>
    unfold onnxLoop at h
    obtain ⟨p0, h1, h⟩ := except_bind_ok h
    obtain ⟨ps', h2, h⟩ := except_bind_ok h
    injection h with h
    subst h
    intro p hp
    rcases List.mem_cons.mp hp with hp | hp
    · subst hp
      exact ⟨PyDec.pymax ⟨55, 2⟩ (PyDec.pymin ⟨95, 2⟩ (scoreOf it)),
        onnx_item_conf i modelPath scoreOf it p h1, clamp_bounds (scoreOf it)⟩
    · exact ih (i + 1) ps' h2 p hp

/-- Witness for C10: a raw score of 5 clamps to 0.95 on a minimal item. -/
theorem C10_onnx_confidence_range_witness :
    onnxLoop "m" (fun _ => ⟨5, 0⟩) 0 [.obj []] =
      .ok [.obj [("kind", .str "Relation"),
        ("proposal_id", .str "rel::related_to::0"),
        ("confidence", .num ⟨95, 2⟩),
        ("evidence", .arr []),
        ("public_rationale", .str "onnx world model prediction"),
        ("metadata", .obj [("model_path", .str "m")]),
        ("schema_hint", .null),
        ("relation_id", .str "rel::related_to::0"),
        ("rel_type", .str "related_to"),
        ("source", .str ""),
        ("target", .str ""),
        ("attributes", .obj [])]] ∧
    (∀ p ∈ [JVal.obj [("kind", .str "Relation"),
        ("proposal_id", .str "rel::related_to::0"),
        ("confidence", .num ⟨95, 2⟩),
        ("evidence", .arr []),
        ("public_rationale", .str "onnx world model prediction"),
        ("metadata", .obj [("model_path", .str "m")]),
        ("schema_hint", .null),
        ("relation_id", .str "rel::related_to::0"),
        ("rel_type", .str "related_to"),
        ("source", .str ""),
        ("target", .str ""),
        ("attributes", .obj [])]],
      ∃ c, respField p "confidence" = some (.num c) ∧
        (0.55 : ℚ) ≤ c.toQ ∧ c.toQ ≤ (0.95 : ℚ)) :=
  ⟨rfl, C10_onnx_confidence_range "m" (fun _ => ⟨5, 0⟩) 0 [.obj []] _ rfl⟩

/-- The augmentation loop's resolved domain for a record: the nested
metadata map's `domain` if truthy, else the attributes map's, else `""`;
`none` when the resolved value is a truthy non-string (`.strip()` raises). -/
def augDomain (fs : List (String × JVal)) : Option String :=
  let md := JVal.pyOr (jget fs "metadata") (.obj [])
  let meta_domain := match md with | .obj mfs => jget mfs "domain" | _ => .null
  let attrs := JVal.pyOr (jget fs "attributes") (.obj [])
  let attr_domain := match attrs with | .obj afs => jget afs "domain" | _ => .null
  match JVal.pyOr meta_domain (JVal.pyOr attr_domain (.str "")) with
  | .str s => some (strLower (strTrim s))
  | _ => none

/-- Whether a proposal record earns a `schema_hint_updates` entry: it is
map-shaped, its resolved domain is `machining`, and its `proposal_id` is
truthy. -/
def augQualifies (p : JVal) : Bool :=
  match p with
  | .obj fs =>
    (match augDomain fs with
     | some d => d == "machining"
     | none => false) && (JVal.pyOr (jget fs "proposal_id") (.str "")).truthy
  | _ => false

/-- The update entry emitted for a qualifying proposal. -/
def augEntry (p : JVal) : JVal :=
  match p with
  | .obj fs => .obj [
      ("proposal_id", JVal.pyOr (jget fs "proposal_id") (.str "")),
      ("schema_hint", .str "machinist_learning"),
      ("public_rationale", .str "mock plugin: domain=machining → machinist_learning")]
  | _ => .null

theorem augUpdate_ok (p : JVal) (o : Option JVal) (h : augUpdate p = .ok o) :
    o = if augQualifies p then some (augEntry p) else none := by
  cases p with
  | obj fs =>
    simp only [augUpdate] at h
    cases hd : JVal.pyOr (match JVal.pyOr (jget fs "metadata") (.obj []) with
        | .obj mfs => jget mfs "domain" | _ => JVal.null)
      (JVal.pyOr (match JVal.pyOr (jget fs "attributes") (.obj []) with
        | .obj afs => jget afs "domain" | _ => JVal.null) (.str "")) with
    | str s =>
      rw [hd] at h
      have h' : (if (strLower (strTrim s) == "machining"
            && (JVal.pyOr (jget fs "proposal_id") (.str "")).truthy) = true then
          Except.ok (some (JVal.obj [
            ("proposal_id", JVal.pyOr (jget fs "proposal_id") (.str "")),
            ("schema_hint", JVal.str "machinist_learning"),
            ("public_rationale",
              JVal.str "mock plugin: domain=machining → machinist_learning")]))
          else Except.ok none) = Except.ok o := h
      have hq : augQualifies (.obj fs) = (strLower (strTrim s) == "machining"
          && (JVal.pyOr (jget fs "proposal_id") (.str "")).truthy) := by
        simp only [augQualifies, augDomain]
        rw [hd]
      by_cases hc : (strLower (strTrim s) == "machining"
          && (JVal.pyOr (jget fs "proposal_id") (.str "")).truthy) = true
      · rw [if_pos hc] at h'
        rw [hq, if_pos hc]
        injection h' with h''
        rw [← h'']
        rfl
      · rw [if_neg hc] at h'
        rw [hq, if_neg hc]
        injection h' with h''
        exact h''.symm
    | null =>
      rw [hd] at h
      exact Except.noConfusion h
    | bool b =>
      rw [hd] at h
      exact Except.noConfusion h
    | num q =>
      rw [hd] at h
      exact Except.noConfusion h
    | arr xs =>
      rw [hd] at h
      exact Except.noConfusion h
    | obj ofs =>
      rw [hd] at h
      exact Except.noConfusion h
  | null => injection h with h; exact h.symm
  | bool b => injection h with h; exact h.symm
  | num q => injection h with h; exact h.symm
  | str s => injection h with h; exact h.symm
  | arr xs => injection h with h; exact h.symm

theorem augUpdates_eq (ps : List JVal) (us : List JVal) (h : augUpdates ps = .ok us) :
    us = (ps.filter augQualifies).map augEntry := by
  induction ps generalizing us with
  | nil =>
    injection h with h
    rw [← h]
    rfl
  | cons p rest ih =>
    unfold augUpdates at h
    obtain ⟨o, h1, h⟩ := except_bind_ok h
    have ho := augUpdate_ok p o h1
    by_cases hq : augQualifies p = true
    · rw [if_pos hq] at ho
      subst ho
      obtain ⟨us', h2, h3⟩ := except_bind_ok h
      injection h3 with h3
      rw [← h3, List.filter_cons, if_pos hq, List.map, ih us' h2]
    · rw [if_neg hq] at ho
      subst ho
      rw [List.filter_cons, if_neg hq]
      exact ih us h

theorem pyOr_arr_empty_default (ps : List JVal) :
    JVal.pyOr (.arr ps) (.arr []) = .arr ps := by
  cases ps with
  | nil => rfl
  | cons p rest => rfl

/-- C9 (amended).  The augmentation path emits exactly one
`schema_hint_updates` entry — `{proposal_id, "machinist_learning",
rationale}` — per proposal that is map-shaped, has a truthy `proposal_id`,
and whose resolved domain (the metadata map's `domain` is consulted first
and, when truthy, shadows the attributes map's) equals `"machining"` after
trimming and lowercasing; proposals with a missing or empty `proposal_id`
produce no entry even when their domain is machining. -/
theorem C9_augment_updates (ps : List JVal) (resp : JVal)
    (h : respond_augment_proposals
        (.obj [("proposals", .obj [("proposals", .arr ps)])]) = .ok resp) :
    respField resp "schema_hint_updates" =
      some (.arr ((ps.filter augQualifies).map augEntry)) ∧
    (∀ p ∈ ps, augQualifies p = true →
      respField (augEntry p) "schema_hint" = some (.str "machinist_learning")) := by
  constructor
  · have e : respond_augment_proposals
        (.obj [("proposals", .obj [("proposals", .arr ps)])]) =
        (pyIter (JVal.pyOr (.arr ps) (.arr []))) >>= (fun psv =>
          (augUpdates psv) >>= (fun updates =>
            pure (.obj [
              ("schema_hint_updates", .arr updates),
              ("added_proposals", mockAddedProposals),
              ("notes", .arr [.str "mock plugin: this is deterministic; replace with a real local model runner for semantic labeling"])]))) := rfl
    rw [e, pyOr_arr_empty_default] at h
    obtain ⟨psv, h3, h⟩ := except_bind_ok h
    injection h3 with h3
    rw [← h3] at h
    obtain ⟨us, h4, h5⟩ := except_bind_ok h
    injection h5 with h5
    rw [← h5, augUpdates_eq ps us h4]
    rfl
  · intro p hp hq
    cases p with
    | obj fs => rfl
    | null => simp [augQualifies] at hq
    | bool b => simp [augQualifies] at hq
    | num q => simp [augQualifies] at hq
    | str s => simp [augQualifies] at hq
    | arr xs => simp [augQualifies] at hq

/-- Witness for C9: a machining proposal with a truthy id yields exactly its
one update entry; a junk record contributes nothing. -/
theorem C9_augment_updates_witness :
    respond_augment_proposals (.obj [("proposals", .obj [("proposals",
      .arr [.obj [("proposal_id", .str "p1"),
          ("metadata", .obj [("domain", .str " Machining ")])],
        .str "junk"])])]) =
      .ok (.obj [
        ("schema_hint_updates", .arr [.obj [
          ("proposal_id", .str "p1"),
          ("schema_hint", .str "machinist_learning"),
          ("public_rationale",
            .str "mock plugin: domain=machining → machinist_learning")]]),
        ("added_proposals", mockAddedProposals),
        ("notes", .arr [.str "mock plugin: this is deterministic; replace with a real local model runner for semantic labeling"])]) ∧
    respField (.obj [
        ("schema_hint_updates", .arr [.obj [
          ("proposal_id", .str "p1"),
          ("schema_hint", .str "machinist_learning"),
          ("public_rationale",
            .str "mock plugin: domain=machining → machinist_learning")]]),
        ("added_proposals", mockAddedProposals),
        ("notes", .arr [.str "mock plugin: this is deterministic; replace with a real local model runner for semantic labeling"])])
      "schema_hint_updates" =
      some (.arr ((([JVal.obj [("proposal_id", .str "p1"),
          ("metadata", .obj [("domain", .str " Machining ")])],
        JVal.str "junk"]).filter augQualifies).map augEntry)) :=
  ⟨rfl, (C9_augment_updates
    [JVal.obj [("proposal_id", .str "p1"),
        ("metadata", .obj [("domain", .str " Machining ")])],
      JVal.str "junk"] _ rfl).1⟩

/-- Counterexample to C9 as stated: a proposal whose metadata carries
`domain = "machining"` but which lacks a `proposal_id` yields an empty
`schema_hint_updates` — not exactly one entry. -/
theorem C9_missing_pid_counterexample :
    ((do
      let r ← respond_augment_proposals (.obj [("proposals", .obj [("proposals",
        .arr [.obj [("metadata", .obj [("domain", .str "machining")])]])])])
      pure (respField r "schema_hint_updates") : Except String (Option JVal)) =
      .ok (some (.arr []))) ∧
    jlookup [("domain", JVal.str "machining")] "domain" =
      some (.str "machining") :=
  ⟨rfl, rfl⟩

/-- C6 (amended).  For every request whose `protocol` is not a recognized
identifier, the mock LLM plugin writes exactly `{"error": "unsupported
protocol"}` and exits 0; the baseline world-model plugin instead raises
`SystemExit("unsupported protocol")`, terminating with a nonzero exit code
and no JSON response. -/
theorem C6_unsupported_protocol (req : JVal) (v : JVal)
    (hv : pyGet req "protocol" = .ok v)
    (hm : (v.eqStr "axiograph_llm_plugin_v2"
        || v.eqStr "axiograph_llm_plugin_v3") = false) :
    mock_main req = .ok (.obj [("error", .str "unsupported protocol")], 0) ∧
    (v.eqStr "axiograph_world_model_v1" = false →
      ∀ (strategy : String) (now : ℕ) (fileRead : Except String JVal),
        baseline_main strategy req now fileRead =
          .error "SystemExit: unsupported protocol") := by
  constructor
  · unfold mock_main
    rw [hv]
    simp only [exbind_ok]
    rw [hm]
    rfl
  · intro hwm strategy now fileRead
    unfold baseline_main
    rw [hv]
    simp only [exbind_ok]
    rw [hwm]
    rfl

/-- Witness for C6: the protocol string `"bogus"` is unrecognized by both
plugins. -/
theorem C6_unsupported_protocol_witness :
    pyGet (.obj [("protocol", .str "bogus")]) "protocol" = .ok (.str "bogus") ∧
    ((JVal.str "bogus").eqStr "axiograph_llm_plugin_v2"
      || (JVal.str "bogus").eqStr "axiograph_llm_plugin_v3") = false ∧
    mock_main (.obj [("protocol", .str "bogus")]) =
      .ok (.obj [("error", .str "unsupported protocol")], 0) ∧
    baseline_main "oracle" (.obj [("protocol", .str "bogus")]) 5 (.error "nofile") =
      .error "SystemExit: unsupported protocol" :=
  ⟨rfl, rfl,
    (C6_unsupported_protocol (.obj [("protocol", .str "bogus")]) (.str "bogus")
      rfl rfl).1,
    (C6_unsupported_protocol (.obj [("protocol", .str "bogus")]) (.str "bogus")
      rfl rfl).2 rfl "oracle" 5 (.error "nofile")⟩

/-- Counterexample to C6 as stated: on an unrecognized protocol the baseline
plugin — cited by the claim — terminates with an uncaught
`SystemExit("unsupported protocol")`: no response is written and the exit
code is nonzero, so it is not the case that every cited plugin responds
`{"error": "unsupported protocol"}` with exit code 0. -/
theorem C6_baseline_counterexample :
    baseline_main "oracle" (.obj [("protocol", .str "mystery")]) 7 (.error "nofile") =
      .error "SystemExit: unsupported protocol" ∧
    (Except.error "SystemExit: unsupported protocol"
      : Except String (JVal × ℕ)).isOk = false :=
  ⟨rfl, rfl⟩

/-- The response envelope shape of the world-model protocol. -/
def envelopeShaped (v : JVal) : Bool :=
  (respField v "protocol").isSome && (respField v "trace_id").isSome &&
  (respField v "generated_at_unix_secs").isSome && (respField v "proposals").isSome &&
  (respField v "notes").isSome && (respField v "error").isSome

/-- Whether the envelope's `proposals.proposals` is the empty sequence. -/
def proposalsEmptied (v : JVal) : Bool :=
  match respField v "proposals" with
  | some d =>
    match respField d "proposals" with
    | some (.arr []) => true
    | _ => false
  | none => false

theorem main_real_ok_shape (req : JVal) (now : ℕ) (bn : String)
    (br : Except String JVal) (out : JVal)
    (h : main_real req now bn br = .ok out) :
    envelopeShaped out = true ∧ respField out "error" = some .null := by
  unfold main_real at h
  obtain ⟨a1, -, h⟩ := except_bind_ok h
  obtain ⟨a2, -, h⟩ := except_bind_ok h
  obtain ⟨a3, -, h⟩ := except_bind_ok h
  obtain ⟨a4, -, h⟩ := except_bind_ok h
  obtain ⟨a5, -, h⟩ := except_bind_ok h
  injection h with h
  rw [← h]
  exact ⟨rfl, rfl⟩

theorem main_onnx_ok_shape (req : JVal) (now : ℕ) (emp : String)
    (lr : Except String Unit) (sf : JVal → PyDec) (out : JVal)
    (h : main_onnx req now emp lr sf = .ok out) :
    envelopeShaped out = true ∧ respField out "error" = some .null := by
  unfold main_onnx at h
  obtain ⟨a1, -, h⟩ := except_bind_ok h
  obtain ⟨a2, -, h⟩ := except_bind_ok h
  obtain ⟨a3, -, h⟩ := except_bind_ok h
  obtain ⟨a4, -, h⟩ := except_bind_ok h
  obtain ⟨a5, -, h⟩ := except_bind_ok h
  obtain ⟨a6, -, h⟩ := except_bind_ok h
  obtain ⟨a7, -, h⟩ := except_bind_ok h
  obtain ⟨a8, -, h⟩ := except_bind_ok h
  obtain ⟨a9, -, h⟩ := except_bind_ok h
  obtain ⟨a10, -, h⟩ := except_bind_ok h
  obtain ⟨a11, -, h⟩ := except_bind_ok h
  obtain ⟨a12, -, h⟩ := except_bind_ok h
  obtain ⟨a13, -, h⟩ := except_bind_ok h
  obtain ⟨a14, -, h⟩ := except_bind_ok h
  obtain ⟨a15, -, h⟩ := except_bind_ok h
  injection h with h
  rw [← h]
  exact ⟨rfl, rfl⟩

theorem wm_guard_cases (now : ℕ) (body : Except String JVal)
    (hshape : ∀ out, body = .ok out →
      envelopeShaped out = true ∧ respField out "error" = some .null) :
    envelopeShaped (wm_guarded_run now body).1 = true ∧
    (((wm_guarded_run now body).2 = 0 ∧
        respField (wm_guarded_run now body).1 "error" = some .null) ∨
     ((wm_guarded_run now body).2 = 2 ∧
        (∃ e, respField (wm_guarded_run now body).1 "error" = some (.str e)) ∧
        proposalsEmptied (wm_guarded_run now body).1 = true)) := by
  cases body with
  | ok out =>
    obtain ⟨h1, h2⟩ := hshape out rfl
    exact ⟨h1, Or.inl ⟨rfl, h2⟩⟩
  | error e =>
    exact ⟨rfl, Or.inr ⟨rfl, ⟨e, rfl⟩, rfl⟩⟩

/-- C7 (amended).  For the real and ONNX world-model plugins, whose
`__main__` guard catches every exception: the full response envelope is
always produced; on success the process exits 0 with `error` null, and on
any failure it exits 2 with `error` a string and `proposals.proposals`
empty.  (The baseline plugin — also cited by the claim — lacks the guard
and, on failure, terminates with an uncaught exception and no envelope; see
the counterexample.) -/
theorem C7_world_model_envelope (now : ℕ) :
    (∀ (req : JVal) (bn : String) (br : Except String JVal),
      envelopeShaped (wm_guarded_run now (main_real req now bn br)).1 = true ∧
      (((wm_guarded_run now (main_real req now bn br)).2 = 0 ∧
          respField (wm_guarded_run now (main_real req now bn br)).1 "error" =
            some .null) ∨
       ((wm_guarded_run now (main_real req now bn br)).2 = 2 ∧
          (∃ e, respField (wm_guarded_run now (main_real req now bn br)).1 "error" =
            some (.str e)) ∧
          proposalsEmptied (wm_guarded_run now (main_real req now bn br)).1 = true))) ∧
    (∀ (req : JVal) (emp : String) (lr : Except String Unit) (sf : JVal → PyDec),
      envelopeShaped (wm_guarded_run now (main_onnx req now emp lr sf)).1 = true ∧
      (((wm_guarded_run now (main_onnx req now emp lr sf)).2 = 0 ∧
          respField (wm_guarded_run now (main_onnx req now emp lr sf)).1 "error" =
            some .null) ∨
       ((wm_guarded_run now (main_onnx req now emp lr sf)).2 = 2 ∧
          (∃ e, respField (wm_guarded_run now (main_onnx req now emp lr sf)).1 "error" =
            some (.str e)) ∧
          proposalsEmptied (wm_guarded_run now (main_onnx req now emp lr sf)).1 = true))) := by
  constructor
  · intro req bn br
    exact wm_guard_cases now (main_real req now bn br)
      (fun out h => main_real_ok_shape req now bn br out h)
  · intro req emp lr sf
    exact wm_guard_cases now (main_onnx req now emp lr sf)
      (fun out h => main_onnx_ok_shape req now emp lr sf out h)

/-- Counterexample to C7 as stated: the baseline world-model plugin has no
`__main__` guard, so a failing invocation — here an export item whose field
entry `["a"]` cannot be unpacked into a key/value pair — terminates with an
uncaught `ValueError`: no envelope is written at all and the claim's
"the plugin still writes the full response envelope" fails. -/
theorem C7_baseline_counterexample :
    baseline_main "oracle" (.obj [("protocol", .str "axiograph_world_model_v1"),
      ("input", .obj [("export", .obj [("items",
        .arr [.obj [("fields", .arr [.arr [.str "a"]])]])])])]) 5 (.error "nofile") =
      .error "ValueError: not a pair" ∧
    (Except.error "ValueError: not a pair" : Except String (JVal × ℕ)).isOk = false :=
  ⟨rfl, rfl⟩

theorem pyGet_obj (fs : List (String × JVal)) (k : String) :
    pyGet (.obj fs) k = .ok (jget fs k) := rfl

/-- A defaulted `rows` value the final-answer branch can consume: a list, a
string, or something falsy (which the `or []` default turns into `[]`);
anything else makes `len(rows)` or `rows[0]` raise. -/
def rowsBenign (rows : JVal) : Bool :=
  !rows.truthy || (match rows with | .arr _ => true | .str _ => true | _ => false)

/-- Whether a transcript entry is an `axql_run` result entry: a dict whose
`tool` is `"axql_run"` and whose defaulted `result` is a dict. -/
def isAxqlResultEntry (last : JVal) : Bool :=
  match last with
  | .obj lfs =>
    (jget lfs "tool").eqStr "axql_run" &&
      (JVal.pyOr (jget lfs "result") (.obj [])).isObj
  | _ => false

/-- A transcript entry the tool loop can answer without raising: when it is
an `axql_run` result entry, its defaulted `results` must be a dict whose
defaulted `rows` is consumable (`rowsBenign`); anything else falls to the
generic answer and is trivially fine. -/
def lastEntryBenign (last : JVal) : Bool :=
  match last with
  | .obj lfs =>
    if (jget lfs "tool").eqStr "axql_run" then
      match JVal.pyOr (jget lfs "result") (.obj []) with
      | .obj rfs =>
        match JVal.pyOr (jget rfs "results") (.obj []) with
        | .obj resfs => rowsBenign (JVal.pyOr (jget resfs "rows") (.arr []))
        | _ => false
      | _ => true
    else true
  | _ => true

theorem axqlResultAnswer_benign (rfs : List (String × JVal))
    (hb : (match JVal.pyOr (jget rfs "results") (.obj []) with
      | .obj resfs => rowsBenign (JVal.pyOr (jget resfs "rows") (.arr []))
      | _ => false) = true) :
    ∃ fa, axqlResultAnswer rfs = .ok (.obj [("final_answer", fa)]) := by
  simp only [axqlResultAnswer]
  cases hres2 : JVal.pyOr (jget rfs "results") (.obj []) with
  | obj resfs =>
    rw [hres2] at hb
    have hb' : rowsBenign (JVal.pyOr (jget resfs "rows") (.arr [])) = true := hb
    rw [pyGet_obj]
    simp only [exbind_ok]
    by_cases hrt : (jget resfs "rows").truthy = true
    · have hrows : JVal.pyOr (jget resfs "rows") (.arr []) = jget resfs "rows" := by
        unfold JVal.pyOr
        rw [if_pos hrt]
      rw [hrows] at hb' ⊢
      cases hr : jget resfs "rows" with
      | arr xs =>
        cases xs with
        | nil => rw [hr] at hrt; simp [JVal.truthy] at hrt
        | cons x rest =>
          cases x with
          | obj xfs => exact ⟨_, rfl⟩
          | null => exact ⟨_, rfl⟩
          | bool b => exact ⟨_, rfl⟩
          | num q => exact ⟨_, rfl⟩
          | str s => exact ⟨_, rfl⟩
          | arr ys => exact ⟨_, rfl⟩
      | str s =>
        rw [hr] at hrt
        cases s with
        | mk data =>
          cases data with
          | nil => simp [JVal.truthy] at hrt
          | cons c cs => exact ⟨_, rfl⟩
      | null => rw [hr] at hrt; simp [JVal.truthy] at hrt
      | bool b =>
        rw [hr] at hb' hrt
        simp only [rowsBenign, hrt, Bool.not_true, Bool.false_or] at hb'
        exact Bool.noConfusion hb' 
      | num q =>
        rw [hr] at hb' hrt
        simp only [rowsBenign, hrt, Bool.not_true, Bool.false_or] at hb'
        exact Bool.noConfusion hb'
      | obj ofs =>
        rw [hr] at hb' hrt
        simp only [rowsBenign, hrt, Bool.not_true, Bool.false_or] at hb'
        exact Bool.noConfusion hb'
    · have hrows : JVal.pyOr (jget resfs "rows") (.arr []) = .arr [] := by
        unfold JVal.pyOr
        rw [if_neg hrt]
      rw [hrows]
      exact ⟨_, rfl⟩
  | null => rw [hres2] at hb; exact Bool.noConfusion hb
  | bool b => rw [hres2] at hb; exact Bool.noConfusion hb
  | num q => rw [hres2] at hb; exact Bool.noConfusion hb
  | str s => rw [hres2] at hb; exact Bool.noConfusion hb
  | arr xs => rw [hres2] at hb; exact Bool.noConfusion hb

theorem toolLoopAnswer_benign (l : JVal) (hb : lastEntryBenign l = true) :
    ∃ fa, toolLoopAnswer l = .ok (.obj [("final_answer", fa)]) ∧
      (isAxqlResultEntry l = false →
        JVal.obj [("final_answer", fa)] = genericFinalAnswer) := by
  cases l with
  | obj lfs =>
    by_cases ht : (jget lfs "tool").eqStr "axql_run" = true
    · simp only [lastEntryBenign] at hb
      rw [if_pos ht] at hb
      simp only [toolLoopAnswer]
      rw [if_pos ht]
      cases hres : JVal.pyOr (jget lfs "result") (.obj []) with
      | obj rfs =>
        rw [hres] at hb
        have hax : isAxqlResultEntry (.obj lfs) = true := by
          simp only [isAxqlResultEntry]
          rw [ht, hres]
          rfl
        obtain ⟨fa, hfa⟩ := axqlResultAnswer_benign rfs hb
        refine ⟨fa, hfa, ?_⟩
        intro hfalse
        rw [hax] at hfalse
        exact Bool.noConfusion hfalse
      | null => exact ⟨_, rfl, fun _ => rfl⟩
      | bool b => exact ⟨_, rfl, fun _ => rfl⟩
      | num q => exact ⟨_, rfl, fun _ => rfl⟩
      | str s => exact ⟨_, rfl, fun _ => rfl⟩
      | arr xs => exact ⟨_, rfl, fun _ => rfl⟩
    · simp only [toolLoopAnswer]
      rw [if_neg ht]
      exact ⟨_, rfl, fun _ => rfl⟩
  | null => exact ⟨_, rfl, fun _ => rfl⟩
  | bool b => exact ⟨_, rfl, fun _ => rfl⟩
  | num q => exact ⟨_, rfl, fun _ => rfl⟩
  | str s => exact ⟨_, rfl, fun _ => rfl⟩
  | arr xs => exact ⟨_, rfl, fun _ => rfl⟩

theorem tool_loop_step_empty (q : String) :
    respond_tool_loop_step (.obj [("question", .str q), ("transcript", .arr [])]) =
      .ok (.obj [("tool_call", .obj [("name", .str "axql_run"),
        ("args", .obj [("query_ir_v1",
          (respField (build_query_payload (strTrim q)) "query_ir_v1").getD .null),
          ("limit", jint 25)])])]) := by
  show ((do
    let question ← pyOrEmptyStrip (.str q)
    let transcript := JVal.pyOr (.arr []) (.arr [])
    if !transcript.truthy then
      let q_payload := build_query_payload question
      let qir := match q_payload with | .obj fs => jget fs "query_ir_v1" | _ => .null
      pure (.obj [("tool_call", .obj [("name", .str "axql_run"),
        ("args", .obj [("query_ir_v1", qir), ("limit", jint 25)])])])
    else do
      let last ← pyLast transcript
      toolLoopAnswer last : Except String JVal)) = _
  rw [pyOrEmptyStrip_str]
  obtain ⟨fs, hfs⟩ := build_query_payload_obj (strTrim q)
  show Except.ok (JVal.obj [("tool_call", .obj [("name", .str "axql_run"),
    ("args", .obj [("query_ir_v1",
      match build_query_payload (strTrim q) with
      | .obj fs => jget fs "query_ir_v1"
      | _ => .null), ("limit", jint 25)])])]) = _
  rw [hfs]
  rfl

theorem tool_loop_step_cons (q : String) (a : JVal) (rest : List JVal) (l : JVal)
    (hl : (a :: rest).getLast? = some l) :
    respond_tool_loop_step
        (.obj [("question", .str q), ("transcript", .arr (a :: rest))]) =
      toolLoopAnswer l := by
  show ((do
    let question ← pyOrEmptyStrip (.str q)
    let transcript := JVal.pyOr (.arr (a :: rest)) (.arr [])
    if !transcript.truthy then
      let q_payload := build_query_payload question
      let qir := match q_payload with | .obj fs => jget fs "query_ir_v1" | _ => .null
      pure (.obj [("tool_call", .obj [("name", .str "axql_run"),
        ("args", .obj [("query_ir_v1", qir), ("limit", jint 25)])])])
    else do
      let last ← pyLast transcript
      toolLoopAnswer last : Except String JVal)) = _
  rw [pyOrEmptyStrip_str]
  show ((do
    let last ← pyLast (.arr (a :: rest))
    toolLoopAnswer last : Except String JVal)) = _
  rw [pyLast_arr hl]
  rfl

/-- C1 (amended).  For every question string and list-shaped transcript whose
last entry is benign (`lastEntryBenign`: when it is an `axql_run` result
entry, its defaulted `results.rows` must be a list, a string, or falsy): the
response carries a `tool_call` exactly when the transcript is empty and a
`final_answer` exactly when it is non-empty — so the engine never emits two
tool calls in a row and never a tool call after a final answer — any
non-empty transcript whose last entry is not an `axql_run` result entry
yields the generic `"Done."` final answer, and an absent transcript behaves
as the empty one.  (Without the benignity proviso the claim fails: an
`axql_run` entry whose `rows` is a number makes `len(rows)` raise instead of
yielding a final answer; see the counterexample.) -/
theorem C1_tool_loop_two_states (q : String) (ts : List JVal)
    (hb : (ts.getLast?.map lastEntryBenign).getD true = true) :
    hasFieldE (respond_tool_loop_step
        (.obj [("question", .str q), ("transcript", .arr ts)])) "tool_call"
      = ts.isEmpty ∧
    hasFieldE (respond_tool_loop_step
        (.obj [("question", .str q), ("transcript", .arr ts)])) "final_answer"
      = !ts.isEmpty ∧
    (∀ last, ts.getLast? = some last → isAxqlResultEntry last = false →
      respond_tool_loop_step (.obj [("question", .str q), ("transcript", .arr ts)])
        = .ok genericFinalAnswer) ∧
    respond_tool_loop_step (.obj [("question", .str q)])
      = respond_tool_loop_step (.obj [("question", .str q), ("transcript", .arr [])]) := by
  cases ts with
  | nil =>
    refine ⟨?_, ?_, ?_, rfl⟩
    · rw [tool_loop_step_empty]
      rfl
    · rw [tool_loop_step_empty]
      rfl
    · intro last h
      exact absurd h (by simp)
  | cons a rest =>
    have hsome : ((a :: rest).getLast?).isSome := by
      rw [List.getLast?_isSome]
      simp
    obtain ⟨l, hl⟩ := Option.isSome_iff_exists.mp hsome
    rw [hl] at hb
    simp only [Option.map_some', Option.getD_some] at hb
    obtain ⟨fa, hfa, hgen⟩ := toolLoopAnswer_benign l hb
    have hstep := tool_loop_step_cons q a rest l hl
    refine ⟨?_, ?_, ?_, rfl⟩
    · rw [hstep, hfa]
      rfl
    · rw [hstep, hfa]
      rfl
    · intro last h hax
      rw [hl] at h
      injection h with h
      subst h
      rw [hstep, hfa, hgen hax]

/-- Witness for C1: an empty transcript yields a tool call; a one-entry
transcript whose entry is a junk string yields the generic final answer. -/
theorem C1_tool_loop_two_states_witness :
    ((([JVal.str "junk"].getLast?).map lastEntryBenign).getD true = true) ∧
    (hasFieldE (respond_tool_loop_step (.obj [("question", .str "hi"),
        ("transcript", .arr [.str "junk"])])) "tool_call"
      = [JVal.str "junk"].isEmpty ∧
    hasFieldE (respond_tool_loop_step (.obj [("question", .str "hi"),
        ("transcript", .arr [.str "junk"])])) "final_answer"
      = !([JVal.str "junk"].isEmpty) ∧
    (∀ last, [JVal.str "junk"].getLast? = some last →
      isAxqlResultEntry last = false →
      respond_tool_loop_step (.obj [("question", .str "hi"),
        ("transcript", .arr [.str "junk"])]) = .ok genericFinalAnswer) ∧
    respond_tool_loop_step (.obj [("question", .str "hi")])
      = respond_tool_loop_step (.obj [("question", .str "hi"),
          ("transcript", .arr [])])) :=
  ⟨rfl, C1_tool_loop_two_states "hi" [.str "junk"] rfl⟩

/-- Counterexample to C1 as stated: a sequence transcript whose last entry is
an `axql_run` entry carrying `rows = 5` makes the engine raise `TypeError`
(`len(5)`) — no final answer is produced, so the response does not contain a
final answer for this non-empty transcript. -/
theorem C1_rows_len_counterexample :
    respond_tool_loop_step (.obj [("question", .str "q"),
      ("transcript", .arr [.obj [("tool", .str "axql_run"),
        ("result", .obj [("results", .obj [("rows", jint 5)])])]])]) =
      .error "TypeError: no len" ∧
    (Except.error "TypeError: no len" : Except String JVal).isOk = false :=
  ⟨rfl, rfl⟩
